import Mathlib

/-!
# ucloud-exporter: the CDN scrape aggregator (`exporter/ucloudexporter.go`)

A shallow embedding of `CdnCloudExporter`, `Describe` and `Collect`, together with the
Go language primitives they rely on:

* `float64` is IEEE-754 binary64 with round-to-nearest-even (`F64`); the payload of a NaN
  produced by arithmetic is not tracked (every arithmetic NaN is `F64.nan`);
* `int` is the 64-bit two's-complement integer of the Go toolchain (`wrap64`);
* the library calls `fmt.Sprintf("%.2f", x)` and `strconv.ParseFloat(s, 64)` are fields of
  `Libs`; `goLibs` is their reference behaviour;
* the functions of package `collector` are fields of `Collector`;
* a scrape is a `Run`: the data-source calls made, the metrics sent on the channel, and how
  the call ended.
-/

namespace UCloudExporter

/-! ## float64 -/

/-- IEEE-754 binary64: sign bit, 11-bit biased exponent, 52-bit fraction. -/
structure F64 where
  sign : Bool
  expo : Fin 2048
  frac : Fin 4503599627370496
deriving DecidableEq, Repr

namespace F64

/-- Go zero value of a `float64` variable (`+0`). -/
def zero : F64 := ⟨false, 0, 0⟩

/-- Infinity of the given sign. -/
def inf (neg : Bool) : F64 := ⟨neg, 2047, 0⟩

/-- The value of `math.NaN()`, bit pattern `0x7FF8000000000001`. -/
def nan : F64 := ⟨false, 2047, 2251799813685249⟩

def isNaN (x : F64) : Bool := x.expo.val == 2047 && x.frac.val != 0

def isInf (x : F64) : Bool := x.expo.val == 2047 && x.frac.val == 0

def isZero (x : F64) : Bool := x.expo.val == 0 && x.frac.val == 0

/-- Integer significand of a finite value: the value is `± mant * 2 ^ exp2`. -/
def mant (x : F64) : Nat :=
  if x.expo.val = 0 then x.frac.val else 4503599627370496 + x.frac.val

/-- Binary exponent of the unit in the last place of a finite value. -/
def exp2 (x : F64) : Int :=
  (if x.expo.val = 0 then 1 else (x.expo.val : Int)) - 1075

/-- Number of binary digits of `n`; the first argument bounds the recursion. -/
def bitLenAux : Nat → Nat → Nat
  | 0, _ => 0
  | fuel + 1, n => if n = 0 then 0 else bitLenAux fuel (n / 2) + 1

def bitLen (n : Nat) : Nat := bitLenAux n n

/-- Quotient `num / den` rounded to the nearest integer, ties to the even one. -/
def divRoundEven (num den : Nat) : Nat :=
  let m := num / den
  let r := num % den
  if den < 2 * r ∨ (2 * r = den ∧ m % 2 = 1) then m + 1 else m

/-- Assemble a value from a biased exponent and a fraction; out of range is infinity. -/
def ofFields (neg : Bool) (E f : Nat) : F64 :=
  if h : E < 2047 ∧ f < 4503599627370496 then ⟨neg, ⟨E, by omega⟩, ⟨f, h.2⟩⟩ else inf neg

/-- The integer `fl` with `2 ^ fl ≤ p / q < 2 ^ (fl + 1)`, for positive `p` and `q`. -/
def floorLog2 (p q : Nat) : Int :=
  let k : Int := (bitLen p : Int) - (bitLen q : Int)
  if q * 2 ^ k.toNat ≤ p * 2 ^ (-k).toNat then k else k - 1

/-- The value `± m * 2 ^ e` for a rounded significand `m ≤ 2 ^ 53`: a carry to `2 ^ 53`
moves to the next exponent, a significand below `2 ^ 52` is subnormal. -/
def pack (neg : Bool) (m : Nat) (e : Int) : F64 :=
  if m = 9007199254740992 then ofFields neg (e + 1 + 1075).toNat 0
  else if m < 4503599627370496 then ofFields neg 0 m
  else ofFields neg (e + 1075).toNat (m - 4503599627370496)

/-- The binary64 nearest to `± p / q` (`0 < q`), ties to even, overflow to infinity. -/
def roundNE (neg : Bool) (p q : Nat) : F64 :=
  if p = 0 then ⟨neg, 0, 0⟩ else
  let e : Int := max (floorLog2 p q - 52) (-1074)
  pack neg (divRoundEven (p * 2 ^ (-e).toNat) (q * 2 ^ e.toNat)) e

/-- Conversion `float64(n)` of an integer. -/
def ofInt (z : Int) : F64 := roundNE (decide (z < 0)) z.natAbs 1

/-- Go `x + y` on `float64`. -/
def add (x y : F64) : F64 :=
  if x.isNaN || y.isNaN then nan
  else if x.isInf then (if y.isInf && (x.sign != y.sign) then nan else x)
  else if y.isInf then y
  else if x.isZero then (if y.isZero then ⟨x.sign && y.sign, 0, 0⟩ else y)
  else if y.isZero then x
  else
    let e : Int := min x.exp2 y.exp2
    let a : Int := (if x.sign then -1 else 1) * ((x.mant * 2 ^ (x.exp2 - e).toNat : Nat) : Int)
    let b : Int := (if y.sign then -1 else 1) * ((y.mant * 2 ^ (y.exp2 - e).toNat : Nat) : Int)
    let s : Int := a + b
    if s = 0 then ⟨x.sign && y.sign, 0, 0⟩
    else roundNE (decide (s < 0)) (s.natAbs * 2 ^ e.toNat) (2 ^ (-e).toNat)

/-- Go `x / y` on `float64`. -/
def div (x y : F64) : F64 :=
  let neg := x.sign != y.sign
  if x.isNaN || y.isNaN then nan
  else if x.isInf then (if y.isInf then nan else inf neg)
  else if y.isInf then ⟨neg, 0, 0⟩
  else if y.isZero then (if x.isZero then nan else inf neg)
  else
    let d : Int := x.exp2 - y.exp2
    roundNE neg (x.mant * 2 ^ d.toNat) (y.mant * 2 ^ (-d).toNat)

/-- Hundredths of `|x|` for finite `x`, rounded to the nearest integer, ties to even. -/
def cents (x : F64) : Nat :=
  divRoundEven (x.mant * 100 * 2 ^ x.exp2.toNat) (2 ^ (-x.exp2).toNat)

/-- Rounding to two decimals: the binary64 nearest to the two-decimal numeral nearest to
`x` (ties of the decimal rounding go to the even hundredth). -/
def round2 (x : F64) : F64 :=
  if x.isNaN then nan
  else if x.isInf then inf x.sign
  else roundNE x.sign x.cents 100

/-- The binary64 denoted by the decimal literal `num / den`, as the Go compiler rounds it. -/
def lit (num den : Nat) : F64 := roundNE false num den

end F64

instance : Add F64 := ⟨F64.add⟩

instance : Div F64 := ⟨F64.div⟩

/-! ## int -/

/-- Reduction of an integer into the range of the 64-bit two's-complement `int`. -/
def wrap64 (z : Int) : Int := (z + 9223372036854775808) % 18446744073709551616 - 9223372036854775808

/-- Go `a + b` on `int`: wraps around on overflow. -/
def intAdd (a b : Int) : Int := wrap64 (a + b)

/-- Go `a / b` on `int`: truncates toward zero; `none` is the run-time panic
"integer divide by zero". -/
def intDiv (a b : Int) : Option Int :=
  if b = 0 then none else some (wrap64 (Int.tdiv a b))

/-! ## fmt and strconv -/

/-- The error kinds of `strconv.ParseFloat`. -/
inductive NumError where
  | ErrSyntax
  | ErrRange
deriving DecidableEq, Repr

deriving instance DecidableEq for Except

/-- The two library calls of the rounding step of `Collect`. -/
structure Libs where
  /-- Stands for `fmt.Sprintf("%.2f", x)`. -/
  Sprintf2 : F64 → String
  /-- Stands for `strconv.ParseFloat(s, 64)`; the value returned next to an error is dropped. -/
  ParseFloat : String → Except NumError F64

/-- Text of `fmt.Sprintf("%.2f", x)`: `NaN`, `+Inf`, `-Inf`, or sign, integer digits, a point
and two decimals, the decimal rounding being exact with ties to even. -/
def goSprintf2 (x : F64) : String :=
  if x.isNaN then "NaN"
  else if x.isInf then (if x.sign then "-Inf" else "+Inf")
  else String.mk ((if x.sign then [('-' : Char)] else []) ++ Nat.toDigits 10 (x.cents / 100)
    ++ ['.', Nat.digitChar (x.cents % 100 / 10), Nat.digitChar (x.cents % 10)])

/-- Value of a string of decimal digits. -/
def digitsVal (cs : List Char) : Nat :=
  cs.foldl (fun acc c => 10 * acc + (c.toNat - 48)) 0

/-- The special values of `strconv`: `nan` without sign, `inf` and `infinity` with an optional
sign, letter case ignored. -/
def goSpecial (cs : List Char) : Option F64 :=
  match cs with
  | [] => none
  | c :: r =>
    if c = '+' ∨ c = '-' then
      (if r.map Char.toLower = ['i', 'n', 'f'] ∨
          r.map Char.toLower = ['i', 'n', 'f', 'i', 'n', 'i', 't', 'y'] then
        some (F64.inf (decide (c = '-'))) else none)
    else if c = 'i' ∨ c = 'I' then
      (if cs.map Char.toLower = ['i', 'n', 'f'] ∨
          cs.map Char.toLower = ['i', 'n', 'f', 'i', 'n', 'i', 't', 'y'] then
        some (F64.inf false) else none)
    else if c = 'n' ∨ c = 'N' then
      (if cs.map Char.toLower = ['n', 'a', 'n'] then some F64.nan else none)
    else none

/-- Decimal numerals `[+-]digits[.digits]` with at least one digit. -/
def goDecimal (cs : List Char) : Except NumError F64 :=
  let neg := decide (cs.head? = some '-')
  let body := match cs with
    | c :: r => if c = '+' ∨ c = '-' then r else cs
    | [] => []
  let ip := body.takeWhile Char.isDigit
  let rest := body.dropWhile Char.isDigit
  let fp : Option (List Char) := match rest with
    | [] => some []
    | c :: f => if c = '.' ∧ f.all Char.isDigit then some f else none
  match fp with
  | none => .error .ErrSyntax
  | some f =>
    if ip = [] ∧ f = [] then .error .ErrSyntax
    else
      let v := F64.roundNE neg (digitsVal (ip ++ f)) (10 ^ f.length)
      if v.isInf then .error .ErrRange else .ok v

/-- Behaviour of `strconv.ParseFloat(s, 64)` on the special values and on decimal numerals
without exponent: the correctly rounded binary64, `ErrRange` when it overflows, `ErrSyntax`
for text outside this fragment (the exponent, hexadecimal and underscore notations that
`strconv` also reads are not part of it; `Sprintf2` never writes them). -/
def goParseFloat (s : String) : Except NumError F64 :=
  match goSpecial s.data with
  | some v => .ok v
  | none => goDecimal s.data

/-- Reference behaviour of the Go standard library. -/
def goLibs : Libs := ⟨goSprintf2, goParseFloat⟩

/-! ## The SDK records read by `Collect` -/

/-- A monitored domain (`ucdn.DomainBaseInfo`): the two fields the exporter reads. -/
structure DomainBaseInfo where
  Domain : String
  DomainId : String
deriving DecidableEq, Repr

/-- One point of the hit-rate series. -/
structure HitRateInfo where
  FlowHitRate : F64
  RequestHitRate : F64
deriving DecidableEq, Repr

/-- One point of the bandwidth series. -/
structure BandwidthInfo where
  CdnBandwidth : F64
deriving DecidableEq, Repr

/-- The counters of one status-code class. -/
structure HttpCodeClass where
  Total : Int
deriving DecidableEq, Repr

/-- One point of the HTTP status-code series. -/
structure HttpCodeInfo where
  Http1XX : HttpCodeClass
  Http2XX : HttpCodeClass
  Http3XX : HttpCodeClass
  Http4XX : HttpCodeClass
  Http5XX : HttpCodeClass
deriving DecidableEq, Repr

/-- One point of the origin-request series. -/
structure RequestInfo where
  CdnRequest : F64
deriving DecidableEq, Repr

structure HitRateResponse where
  HitRateList : List HitRateInfo
deriving DecidableEq, Repr

structure BandwidthResponse where
  BandwidthList : List BandwidthInfo
deriving DecidableEq, Repr

structure HttpCodeResponse where
  HttpCodeDetail : List HttpCodeInfo
deriving DecidableEq, Repr

structure RequestResponse where
  RequestList : List RequestInfo
deriving DecidableEq, Repr

structure Bandwidth95Response where
  CdnBandwidth : F64
deriving DecidableEq, Repr

/-- Package `collector`: its five functions, each called with
`(domainId, projectId, rangeTime, delayTime, client)`. Their bodies are not part of the
exporter file; a scrape is studied for an arbitrary `Collector`. -/
structure Collector (Client : Type) where
  RetrieveHitRate : String → String → Int → Int → Client → HitRateResponse
  RetrieveBandWidth : String → String → Int → Int → Client → BandwidthResponse
  RetrieveOriginHttpCode4xx : String → String → Int → Int → Client → HttpCodeResponse
  RetrieveDomainOriginRequestNum : String → String → Int → Int → Client → RequestResponse
  Retrieve95BandWidth : String → String → Int → Int → Client → Bandwidth95Response

/-! ## The prometheus client -/

/-- A metric descriptor (`prometheus.Desc`): fully qualified name, help, label names. The
exporter passes no constant labels. -/
structure Desc where
  fqName : String
  help : String
  variableLabels : List String
deriving DecidableEq, Repr

/-- Joins the non-empty parts with an underscore (`prometheus.BuildFQName`). -/
def BuildFQName (ns subsystem name : String) : String :=
  if name = "" then ""
  else if ns ≠ "" ∧ subsystem ≠ "" then ns ++ "_" ++ subsystem ++ "_" ++ name
  else if ns ≠ "" then ns ++ "_" ++ name
  else if subsystem ≠ "" then subsystem ++ "_" ++ name
  else name

def NewDesc (fqName help : String) (variableLabels : List String) : Desc :=
  ⟨fqName, help, variableLabels⟩

inductive ValueType where
  | CounterValue
  | GaugeValue
  | UntypedValue
deriving DecidableEq, Repr

/-- A constant metric as handed to the channel. -/
structure Metric where
  desc : Desc
  valType : ValueType
  value : F64
  labelValues : List String
deriving DecidableEq, Repr

/-- The call `prometheus.MustNewConstMetric`: `none` is its panic when the number of label
values differs from the number of label names of the descriptor. -/
def MustNewConstMetric (desc : Desc) (valueType : ValueType) (value : F64)
    (labelValues : List String) : Option Metric :=
  if labelValues.length = desc.variableLabels.length then
    some ⟨desc, valueType, value, labelValues⟩
  else none

/-! ## Effects of a scrape -/

/-- The ways a scrape is cut short. -/
inductive Abort where
  /-- The call `log.Fatal(err)`: the process exits. -/
  | fatal (err : NumError)
  /-- A run-time panic. -/
  | panicked (msg : String)
deriving DecidableEq, Repr

/-- The five operations of the data source. -/
inductive Op where
  | HitRate
  | BandWidth
  | OriginHttpCode4xx
  | DomainOriginRequestNum
  | BandWidth95
deriving DecidableEq, Repr

/-- A recorded call of the data source with its arguments. -/
structure Call where
  op : Op
  domainId : String
  projectId : String
  rangeTime : Int
  delayTime : Int
deriving DecidableEq, Repr

/-- A piece of a scrape: the data-source calls made, the metrics sent on the channel, in
order, and either the value computed or the reason the scrape stopped. -/
structure Run (α : Type) where
  calls : List Call
  sent : List Metric
  res : Except Abort α

namespace Run

def ret {α : Type} (a : α) : Run α := ⟨[], [], .ok a⟩

/-- Sequencing: nothing after an abort is executed. -/
def andThen {α β : Type} (x : Run α) (f : α → Run β) : Run β :=
  match x.res with
  | .error a => ⟨x.calls, x.sent, .error a⟩
  | .ok v => ⟨x.calls ++ (f v).calls, x.sent ++ (f v).sent, (f v).res⟩

instance : Monad Run where
  pure := ret
  bind := andThen

/-- A data-source call returning `r`. -/
def call {α : Type} (c : Call) (r : α) : Run α := ⟨[c], [], .ok r⟩

/-- The statement `ch <- m`. -/
def send (m : Metric) : Run Unit := ⟨[], [m], .ok ()⟩

/-- The statement `if err != nil { log.Fatal(err) }` after a library call. -/
def orFatal {α : Type} (r : Except NumError α) : Run α :=
  match r with
  | .ok v => ⟨[], [], .ok v⟩
  | .error err => ⟨[], [], .error (.fatal err)⟩

/-- An operation that may panic. -/
def orPanic {α : Type} (msg : String) (r : Option α) : Run α :=
  match r with
  | some v => ⟨[], [], .ok v⟩
  | none => ⟨[], [], .error (.panicked msg)⟩

/-- The scrape ran to the end of `Collect`. -/
def completed (x : Run Unit) : Prop := x.res = .ok ()

instance (x : Run Unit) : Decidable x.completed := by
  unfold completed; infer_instance

end Run

/-! ## The exporter -/

def cdnNameSpace : String := "uCloud"

structure CdnExporter (Client : Type) where
  client : Client
  domainList : List DomainBaseInfo
  rangeTime : Int
  delayTime : Int
  projectId : String
  cdnRequestHitRate : Desc
  cdnFlowHitRate : Desc
  cdnBandWidth : Desc
  cdnOriginHttpCode4xx : Desc
  cdnOriginHttpCode5xx : Desc
  cdn95bandwidth : Desc
  cdnResourceRequest : Desc

def CdnCloudExporter {Client : Type} (domainList : List DomainBaseInfo) (projectId : String)
    (rangeTime delayTime : Int) (c : Client) : CdnExporter Client where
  client := c
  domainList := domainList
  rangeTime := rangeTime
  delayTime := delayTime
  projectId := projectId
  cdnRequestHitRate :=
    NewDesc (BuildFQName cdnNameSpace "cdn" "request_hit_rate") "总请求命中率(%)" ["instanceId"]
  cdnBandWidth :=
    NewDesc (BuildFQName cdnNameSpace "cdn" "band_width") "域名带宽(Mbps)" ["instanceId"]
  cdnOriginHttpCode4xx :=
    NewDesc (BuildFQName cdnNameSpace "cdn" "http_code_4XX") "http4XX请求数(Count)" ["instanceId"]
  cdnOriginHttpCode5xx :=
    NewDesc (BuildFQName cdnNameSpace "cdn" "http_code_5XX") "http5XX请求数(Count)" ["instanceId"]
  cdn95bandwidth :=
    NewDesc (BuildFQName cdnNameSpace "cdn" "95_band_width") "95带宽数据(Mbps)" ["instanceId"]
  cdnFlowHitRate :=
    NewDesc (BuildFQName cdnNameSpace "cdn" "flow_hit_rate") "总流量命中率(%)" ["instanceId"]
  cdnResourceRequest :=
    NewDesc (BuildFQName cdnNameSpace "cdn" "resource_request") "cdn回源请求数" ["instanceId"]

/-- The descriptors sent by `Describe`, in the order of the sends. -/
def Describe {Client : Type} (e : CdnExporter Client) : List Desc :=
  [e.cdnRequestHitRate, e.cdnFlowHitRate, e.cdnBandWidth, e.cdnOriginHttpCode4xx,
   e.cdn95bandwidth, e.cdnOriginHttpCode5xx, e.cdnResourceRequest]

/-- The accumulators of the loop over the HTTP status-code points. -/
structure HttpSums where
  http1xxSum : Int
  http2xxSum : Int
  http3xxSum : Int
  http4xxSum : Int
  http5xxSum : Int
deriving DecidableEq, Repr

/-- The loop over `hitRateData`: both sums start at zero. -/
def hitRateSums (hitRateData : List HitRateInfo) : F64 × F64 :=
  hitRateData.foldl
    (fun acc point => (acc.1 + point.FlowHitRate, acc.2 + point.RequestHitRate))
    (F64.zero, F64.zero)

/-- The loop over `bandWidthData`. -/
def bandWidthSumOf (bandWidthData : List BandwidthInfo) : F64 :=
  bandWidthData.foldl (fun acc point => acc + point.CdnBandwidth) F64.zero

/-- The loop over `httpData`. -/
def httpSums (httpData : List HttpCodeInfo) : HttpSums :=
  httpData.foldl
    (fun acc point =>
      { http1xxSum := intAdd acc.http1xxSum point.Http1XX.Total
        http2xxSum := intAdd acc.http2xxSum point.Http2XX.Total
        http3xxSum := intAdd acc.http3xxSum point.Http3XX.Total
        http4xxSum := intAdd acc.http4xxSum point.Http4XX.Total
        http5xxSum := intAdd acc.http5xxSum point.Http5XX.Total })
    ⟨0, 0, 0, 0, 0⟩

/-- The loop over `resourceCdnRequestData`. -/
def resourceCdnRequestSumOf (resourceCdnRequestData : List RequestInfo) : F64 :=
  resourceCdnRequestData.foldl (fun acc point => acc + point.CdnRequest) F64.zero

/-- The expression `float64(len(xs))`. -/
def float64Len {α : Type} (xs : List α) : F64 := F64.ofInt (xs.length : Int)

/-- The two-decimal rounding step
`strconv.ParseFloat(fmt.Sprintf("%.2f", x), 64)` followed by `log.Fatal` on error. -/
def roundStep (rt : Libs) (x : F64) : Run F64 :=
  Run.orFatal (rt.ParseFloat (rt.Sprintf2 x))

/-- The body of the loop of `Collect` for one domain. -/
def collectDomain {Client : Type} (rt : Libs) (collector : Collector Client)
    (e : CdnExporter Client) (domain : DomainBaseInfo) : Run Unit := do
  let hitRateData ← Run.call ⟨.HitRate, domain.DomainId, e.projectId, e.rangeTime, e.delayTime⟩
    (collector.RetrieveHitRate domain.DomainId e.projectId e.rangeTime e.delayTime
      e.client).HitRateList
  let flowHitRateSum := (hitRateSums hitRateData).1
  let requestHitRateSum := (hitRateSums hitRateData).2
  let flowHitRateAverage ← roundStep rt (flowHitRateSum / float64Len hitRateData)
  let requestHitRateAverage ← roundStep rt (requestHitRateSum / float64Len hitRateData)
  let bandWidthData ← Run.call
    ⟨.BandWidth, domain.DomainId, e.projectId, e.rangeTime, e.delayTime⟩
    (collector.RetrieveBandWidth domain.DomainId e.projectId e.rangeTime e.delayTime
      e.client).BandwidthList
  let bandWidthSum := bandWidthSumOf bandWidthData
  let bandWidthAverage ← roundStep rt (bandWidthSum / float64Len bandWidthData)
  let httpData ← Run.call
    ⟨.OriginHttpCode4xx, domain.DomainId, e.projectId, e.rangeTime, e.delayTime⟩
    (collector.RetrieveOriginHttpCode4xx domain.DomainId e.projectId e.rangeTime e.delayTime
      e.client).HttpCodeDetail
  let sums := httpSums httpData
  let http4xxAverage ← Run.orPanic "integer divide by zero"
    (intDiv sums.http4xxSum (httpData.length : Int))
  let http5xxAverage ← Run.orPanic "integer divide by zero"
    (intDiv sums.http5xxSum (httpData.length : Int))
  let resourceCdnRequestData ← Run.call
    ⟨.DomainOriginRequestNum, domain.DomainId, e.projectId, e.rangeTime, e.delayTime⟩
    (collector.RetrieveDomainOriginRequestNum domain.DomainId e.projectId e.rangeTime
      e.delayTime e.client).RequestList
  let resourceCdnRequestSum := resourceCdnRequestSumOf resourceCdnRequestData
  let resourceCdnRequestAverage ←
    roundStep rt (resourceCdnRequestSum / float64Len resourceCdnRequestData)
  let m1 ← Run.orPanic "inconsistent label cardinality"
    (MustNewConstMetric e.cdnRequestHitRate .GaugeValue requestHitRateAverage [domain.Domain])
  Run.send m1
  let m2 ← Run.orPanic "inconsistent label cardinality"
    (MustNewConstMetric e.cdnBandWidth .GaugeValue bandWidthAverage [domain.Domain])
  Run.send m2
  let m3 ← Run.orPanic "inconsistent label cardinality"
    (MustNewConstMetric e.cdnOriginHttpCode4xx .GaugeValue (F64.ofInt http4xxAverage)
      [domain.Domain])
  Run.send m3
  let m4 ← Run.orPanic "inconsistent label cardinality"
    (MustNewConstMetric e.cdnOriginHttpCode5xx .GaugeValue (F64.ofInt http5xxAverage)
      [domain.Domain])
  Run.send m4
  let p95 ← Run.call ⟨.BandWidth95, domain.DomainId, e.projectId, e.rangeTime, e.delayTime⟩
    (collector.Retrieve95BandWidth domain.DomainId e.projectId e.rangeTime e.delayTime
      e.client).CdnBandwidth
  let m5 ← Run.orPanic "inconsistent label cardinality"
    (MustNewConstMetric e.cdn95bandwidth .GaugeValue p95 [domain.Domain])
  Run.send m5
  let m6 ← Run.orPanic "inconsistent label cardinality"
    (MustNewConstMetric e.cdnFlowHitRate .GaugeValue flowHitRateAverage [domain.Domain])
  Run.send m6
  let m7 ← Run.orPanic "inconsistent label cardinality"
    (MustNewConstMetric e.cdnResourceRequest .GaugeValue resourceCdnRequestAverage
      [domain.Domain])
  Run.send m7

/-- The loop `for _, domain := range *e.domainList`. -/
def collectLoop {Client : Type} (rt : Libs) (collector : Collector Client)
    (e : CdnExporter Client) : List DomainBaseInfo → Run Unit
  | [] => Run.ret ()
  | domain :: rest => Run.andThen (collectDomain rt collector e domain)
      (fun _ => collectLoop rt collector e rest)

def Collect {Client : Type} (rt : Libs) (collector : Collector Client)
    (e : CdnExporter Client) : Run Unit :=
  collectLoop rt collector e e.domainList

/-! ## Quantities named in the statements -/

section Named

variable {Client : Type}

/-- The slice `hitRateData` fetched for a domain. -/
def hitRateDataOf (collector : Collector Client) (e : CdnExporter Client)
    (domain : DomainBaseInfo) : List HitRateInfo :=
  (collector.RetrieveHitRate domain.DomainId e.projectId e.rangeTime e.delayTime
    e.client).HitRateList

/-- The slice `bandWidthData` fetched for a domain. -/
def bandWidthDataOf (collector : Collector Client) (e : CdnExporter Client)
    (domain : DomainBaseInfo) : List BandwidthInfo :=
  (collector.RetrieveBandWidth domain.DomainId e.projectId e.rangeTime e.delayTime
    e.client).BandwidthList

/-- The slice `httpData` fetched for a domain. -/
def httpDataOf (collector : Collector Client) (e : CdnExporter Client)
    (domain : DomainBaseInfo) : List HttpCodeInfo :=
  (collector.RetrieveOriginHttpCode4xx domain.DomainId e.projectId e.rangeTime e.delayTime
    e.client).HttpCodeDetail

/-- The slice `resourceCdnRequestData` fetched for a domain. -/
def resourceCdnRequestDataOf (collector : Collector Client) (e : CdnExporter Client)
    (domain : DomainBaseInfo) : List RequestInfo :=
  (collector.RetrieveDomainOriginRequestNum domain.DomainId e.projectId e.rangeTime
    e.delayTime e.client).RequestList

/-- The scalar returned by the 95th-percentile call for a domain. -/
def bandwidth95Of (collector : Collector Client) (e : CdnExporter Client)
    (domain : DomainBaseInfo) : F64 :=
  (collector.Retrieve95BandWidth domain.DomainId e.projectId e.rangeTime e.delayTime
    e.client).CdnBandwidth

/-- The quotient `flowHitRateSum/float64(len(hitRateData))` before rounding. -/
def flowHitRateQuot (collector : Collector Client) (e : CdnExporter Client)
    (domain : DomainBaseInfo) : F64 :=
  (hitRateSums (hitRateDataOf collector e domain)).1 /
    float64Len (hitRateDataOf collector e domain)

/-- The quotient `requestHitRateSum/float64(len(hitRateData))` before rounding. -/
def requestHitRateQuot (collector : Collector Client) (e : CdnExporter Client)
    (domain : DomainBaseInfo) : F64 :=
  (hitRateSums (hitRateDataOf collector e domain)).2 /
    float64Len (hitRateDataOf collector e domain)

/-- The quotient `bandWidthSum/float64(len(bandWidthData))` before rounding. -/
def bandWidthQuot (collector : Collector Client) (e : CdnExporter Client)
    (domain : DomainBaseInfo) : F64 :=
  bandWidthSumOf (bandWidthDataOf collector e domain) /
    float64Len (bandWidthDataOf collector e domain)

/-- The quotient `resourceCdnRequestSum/float64(len(resourceCdnRequestData))` before
rounding. -/
def resourceCdnRequestQuot (collector : Collector Client) (e : CdnExporter Client)
    (domain : DomainBaseInfo) : F64 :=
  resourceCdnRequestSumOf (resourceCdnRequestDataOf collector e domain) /
    float64Len (resourceCdnRequestDataOf collector e domain)

/-- Every descriptor of the exporter declares exactly one label name. -/
def oneLabel (e : CdnExporter Client) : Prop :=
  e.cdnRequestHitRate.variableLabels.length = 1 ∧ e.cdnFlowHitRate.variableLabels.length = 1 ∧
  e.cdnBandWidth.variableLabels.length = 1 ∧ e.cdnOriginHttpCode4xx.variableLabels.length = 1 ∧
  e.cdnOriginHttpCode5xx.variableLabels.length = 1 ∧ e.cdn95bandwidth.variableLabels.length = 1 ∧
  e.cdnResourceRequest.variableLabels.length = 1

/-- The call of operation `op` with the arguments `Collect` passes for a domain. -/
def callOf (e : CdnExporter Client) (domain : DomainBaseInfo) (op : Op) : Call :=
  ⟨op, domain.DomainId, e.projectId, e.rangeTime, e.delayTime⟩

/-- The five calls of one loop iteration, in program order. -/
def expectedCalls (e : CdnExporter Client) (domain : DomainBaseInfo) : List Call :=
  [callOf e domain .HitRate, callOf e domain .BandWidth, callOf e domain .OriginHttpCode4xx,
   callOf e domain .DomainOriginRequestNum, callOf e domain .BandWidth95]

/-- A response of the data source. -/
inductive Response where
  | hitRate (r : HitRateResponse)
  | bandWidth (r : BandwidthResponse)
  | httpCode (r : HttpCodeResponse)
  | request (r : RequestResponse)
  | bandWidth95 (r : Bandwidth95Response)
deriving DecidableEq, Repr

/-- The response of the data source to a recorded call. -/
def respond (collector : Collector Client) (client : Client) (c : Call) : Response :=
  match c.op with
  | .HitRate =>
    .hitRate (collector.RetrieveHitRate c.domainId c.projectId c.rangeTime c.delayTime client)
  | .BandWidth =>
    .bandWidth (collector.RetrieveBandWidth c.domainId c.projectId c.rangeTime c.delayTime
      client)
  | .OriginHttpCode4xx =>
    .httpCode (collector.RetrieveOriginHttpCode4xx c.domainId c.projectId c.rangeTime
      c.delayTime client)
  | .DomainOriginRequestNum =>
    .request (collector.RetrieveDomainOriginRequestNum c.domainId c.projectId c.rangeTime
      c.delayTime client)
  | .BandWidth95 =>
    .bandWidth95 (collector.Retrieve95BandWidth c.domainId c.projectId c.rangeTime
      c.delayTime client)

/-- The part of the response to operation `op` for a domain that `Collect` reads: the points
of the series (for the HTTP status codes only the 4XX and 5XX totals and the number of
points), or the 95th-percentile scalar. Two data sources feed the same values to the metrics
reduced from `op` when these parts are equal. -/
def sameFeed (op : Op) (c1 c2 : Collector Client) (e : CdnExporter Client)
    (domain : DomainBaseInfo) : Prop :=
  match op with
  | .HitRate => hitRateDataOf c1 e domain = hitRateDataOf c2 e domain
  | .BandWidth => bandWidthDataOf c1 e domain = bandWidthDataOf c2 e domain
  | .OriginHttpCode4xx =>
    (httpDataOf c1 e domain).map (fun p => (p.Http4XX.Total, p.Http5XX.Total)) =
      (httpDataOf c2 e domain).map (fun p => (p.Http4XX.Total, p.Http5XX.Total))
  | .DomainOriginRequestNum =>
    resourceCdnRequestDataOf c1 e domain = resourceCdnRequestDataOf c2 e domain
  | .BandWidth95 => bandwidth95Of c1 e domain = bandwidth95Of c2 e domain

instance (op : Op) (c1 c2 : Collector Client) (e : CdnExporter Client)
    (domain : DomainBaseInfo) : Decidable (sameFeed op c1 c2 e domain) := by
  cases op <;> unfold sameFeed <;> infer_instance

/-- The operation whose response feeds the metric sent at position `k` of an iteration. -/
def slotOp (k : Nat) : Op :=
  match k with
  | 0 => .HitRate
  | 1 => .BandWidth
  | 2 => .OriginHttpCode4xx
  | 3 => .OriginHttpCode4xx
  | 4 => .BandWidth95
  | 5 => .HitRate
  | _ => .DomainOriginRequestNum

/-- The metrics of an iteration that reaches the sends, for given rounded means `fa`
(flow hit rate), `ra` (request hit rate), `ba` (bandwidth) and `qa` (resource request). -/
def sentOf (collector : Collector Client) (e : CdnExporter Client) (d : DomainBaseInfo)
    (fa ra ba qa : F64) : List Metric :=
  [⟨e.cdnRequestHitRate, .GaugeValue, ra, [d.Domain]⟩,
   ⟨e.cdnBandWidth, .GaugeValue, ba, [d.Domain]⟩,
   ⟨e.cdnOriginHttpCode4xx, .GaugeValue,
     F64.ofInt (wrap64 (Int.tdiv (httpSums (httpDataOf collector e d)).http4xxSum
       ((httpDataOf collector e d).length : Int))), [d.Domain]⟩,
   ⟨e.cdnOriginHttpCode5xx, .GaugeValue,
     F64.ofInt (wrap64 (Int.tdiv (httpSums (httpDataOf collector e d)).http5xxSum
       ((httpDataOf collector e d).length : Int))), [d.Domain]⟩,
   ⟨e.cdn95bandwidth, .GaugeValue, bandwidth95Of collector e d, [d.Domain]⟩,
   ⟨e.cdnFlowHitRate, .GaugeValue, fa, [d.Domain]⟩,
   ⟨e.cdnResourceRequest, .GaugeValue, qa, [d.Domain]⟩]

end Named

/-! ## The reductions as the specification words them -/

/-- Sum of a sequence of `float64`, accumulated from `+0` in sequence order. -/
def F64.sum (xs : List F64) : F64 := xs.foldl (fun acc x => acc + x) F64.zero

/-- Arithmetic mean rounded to two decimals: `round(sum(xs)/count, 2)` in `float64`. -/
def specMean2 (xs : List F64) : F64 :=
  F64.round2 (F64.sum xs / F64.ofInt (xs.length : Int))

/-- Sum of a sequence of `int`, accumulated from `0` in sequence order. -/
def intSum (xs : List Int) : Int := xs.foldl intAdd 0

/-- Integer mean: the sum divided by the count with truncating division. -/
def specIntMean (xs : List Int) : Int := wrap64 (Int.tdiv (intSum xs) (xs.length : Int))

/-- The seven observations of one resource, in emission order, with the values the
reduction policies prescribe. -/
def specObservations {Client : Type} (collector : Collector Client) (e : CdnExporter Client)
    (domain : DomainBaseInfo) : List Metric :=
  [⟨e.cdnRequestHitRate, .GaugeValue,
      specMean2 ((hitRateDataOf collector e domain).map (fun p => p.RequestHitRate)),
      [domain.Domain]⟩,
   ⟨e.cdnBandWidth, .GaugeValue,
      specMean2 ((bandWidthDataOf collector e domain).map (fun p => p.CdnBandwidth)),
      [domain.Domain]⟩,
   ⟨e.cdnOriginHttpCode4xx, .GaugeValue,
      F64.ofInt (specIntMean ((httpDataOf collector e domain).map (fun p => p.Http4XX.Total))),
      [domain.Domain]⟩,
   ⟨e.cdnOriginHttpCode5xx, .GaugeValue,
      F64.ofInt (specIntMean ((httpDataOf collector e domain).map (fun p => p.Http5XX.Total))),
      [domain.Domain]⟩,
   ⟨e.cdn95bandwidth, .GaugeValue, bandwidth95Of collector e domain, [domain.Domain]⟩,
   ⟨e.cdnFlowHitRate, .GaugeValue,
      specMean2 ((hitRateDataOf collector e domain).map (fun p => p.FlowHitRate)),
      [domain.Domain]⟩,
   ⟨e.cdnResourceRequest, .GaugeValue,
      specMean2 ((resourceCdnRequestDataOf collector e domain).map (fun p => p.CdnRequest)),
      [domain.Domain]⟩]

/-! ## Concrete scenarios -/

section Scenarios

open F64

/-- The resource of the end-to-end scenario. -/
def exampleDomain : DomainBaseInfo := ⟨"example.com", "d1"⟩

/-- A second resource. -/
def secondDomain : DomainBaseInfo := ⟨"static.example.com", "d2"⟩

/-- A data source answering every call alike: hit-rate points `{request 90, flow 95}` and
`{request 92, flow 97}`, bandwidth points `10.0, 20.0, 15.5`, three HTTP-code points with 4XX
totals `3, 4, 4` and 5XX totals `0, 1, 1`, one origin-request point `7.0`, and the
95th-percentile scalar `123.456`. -/
def exampleCollector : Collector Unit where
  RetrieveHitRate := fun _ _ _ _ _ => ⟨[⟨lit 95 1, lit 90 1⟩, ⟨lit 97 1, lit 92 1⟩]⟩
  RetrieveBandWidth := fun _ _ _ _ _ => ⟨[⟨lit 10 1⟩, ⟨lit 20 1⟩, ⟨lit 155 10⟩]⟩
  RetrieveOriginHttpCode4xx := fun _ _ _ _ _ =>
    ⟨[⟨⟨1⟩, ⟨20⟩, ⟨5⟩, ⟨3⟩, ⟨0⟩⟩, ⟨⟨1⟩, ⟨20⟩, ⟨5⟩, ⟨4⟩, ⟨1⟩⟩, ⟨⟨1⟩, ⟨20⟩, ⟨5⟩, ⟨4⟩, ⟨1⟩⟩]⟩
  RetrieveDomainOriginRequestNum := fun _ _ _ _ _ => ⟨[⟨lit 7 1⟩]⟩
  Retrieve95BandWidth := fun _ _ _ _ _ => ⟨lit 123456 1000⟩

/-- The data source `exampleCollector` with another bandwidth series and other 1XX, 2XX and
3XX totals. -/
def variedCollector : Collector Unit where
  RetrieveHitRate := exampleCollector.RetrieveHitRate
  RetrieveBandWidth := fun _ _ _ _ _ => ⟨[⟨lit 1 1⟩, ⟨lit 2 1⟩]⟩
  RetrieveOriginHttpCode4xx := fun _ _ _ _ _ =>
    ⟨[⟨⟨9⟩, ⟨8⟩, ⟨7⟩, ⟨3⟩, ⟨0⟩⟩, ⟨⟨0⟩, ⟨0⟩, ⟨0⟩, ⟨4⟩, ⟨1⟩⟩, ⟨⟨6⟩, ⟨5⟩, ⟨4⟩, ⟨4⟩, ⟨1⟩⟩]⟩
  RetrieveDomainOriginRequestNum := exampleCollector.RetrieveDomainOriginRequestNum
  Retrieve95BandWidth := exampleCollector.Retrieve95BandWidth

/-- The data source `exampleCollector`, except that it answers differently for the domain
identifier `d9`. -/
def elsewhereCollector : Collector Unit where
  RetrieveHitRate := fun id a b c d =>
    if id = "d9" then ⟨[]⟩ else exampleCollector.RetrieveHitRate id a b c d
  RetrieveBandWidth := exampleCollector.RetrieveBandWidth
  RetrieveOriginHttpCode4xx := exampleCollector.RetrieveOriginHttpCode4xx
  RetrieveDomainOriginRequestNum := exampleCollector.RetrieveDomainOriginRequestNum
  Retrieve95BandWidth := exampleCollector.Retrieve95BandWidth

/-- The data source `exampleCollector`, except that the HTTP-code series of the domain
identifier `d1` has no point. -/
def emptyHttpCollector : Collector Unit where
  RetrieveHitRate := exampleCollector.RetrieveHitRate
  RetrieveBandWidth := exampleCollector.RetrieveBandWidth
  RetrieveOriginHttpCode4xx := fun id a b c d =>
    if id = "d1" then ⟨[]⟩ else exampleCollector.RetrieveOriginHttpCode4xx id a b c d
  RetrieveDomainOriginRequestNum := exampleCollector.RetrieveDomainOriginRequestNum
  Retrieve95BandWidth := exampleCollector.Retrieve95BandWidth

/-- The data source `exampleCollector`, except that the bandwidth series of the domain
identifier `d1` has no point. -/
def emptyBandwidthCollector : Collector Unit where
  RetrieveHitRate := exampleCollector.RetrieveHitRate
  RetrieveBandWidth := fun id a b c d =>
    if id = "d1" then ⟨[]⟩ else exampleCollector.RetrieveBandWidth id a b c d
  RetrieveOriginHttpCode4xx := exampleCollector.RetrieveOriginHttpCode4xx
  RetrieveDomainOriginRequestNum := exampleCollector.RetrieveDomainOriginRequestNum
  Retrieve95BandWidth := exampleCollector.Retrieve95BandWidth

/-- A library whose `ParseFloat` rejects the text `NaN`; with it the rounding step of an
empty series fails. -/
def strictLibs : Libs :=
  ⟨goSprintf2, fun s => if s = "NaN" then .error .ErrSyntax else goParseFloat s⟩

end Scenarios


/-! ## Sequencing of effects -/

namespace Run

theorem bind_eq {α β : Type} (x : Run α) (f : α → Run β) : x >>= f = andThen x f := rfl

theorem pure_eq {α : Type} (a : α) : (pure a : Run α) = ret a := rfl

theorem andThen_ok {α β : Type} (cs : List Call) (ms : List Metric) (v : α) (f : α → Run β) :
    andThen ⟨cs, ms, .ok v⟩ f = ⟨cs ++ (f v).calls, ms ++ (f v).sent, (f v).res⟩ := rfl

theorem andThen_error {α β : Type} (cs : List Call) (ms : List Metric) (a : Abort)
    (f : α → Run β) : andThen ⟨cs, ms, .error a⟩ f = ⟨cs, ms, .error a⟩ := rfl

theorem andThen_silent {α β : Type} (v : α) (f : α → Run β) :
    andThen ⟨[], [], .ok v⟩ f = f v := rfl

theorem andThen_call {α β : Type} (c : Call) (r : α) (f : α → Run β) :
    andThen (call c r) f = ⟨c :: (f r).calls, (f r).sent, (f r).res⟩ := rfl

theorem andThen_send {β : Type} (m : Metric) (f : Unit → Run β) :
    andThen (send m) f = ⟨(f ()).calls, m :: (f ()).sent, (f ()).res⟩ := rfl

theorem andThen_orFatal_ok {α β : Type} (v : α) (f : α → Run β) :
    andThen (orFatal (.ok v)) f = f v := rfl

theorem andThen_orFatal_error {α β : Type} (err : NumError) (f : α → Run β) :
    andThen (orFatal (.error err)) f = ⟨[], [], .error (.fatal err)⟩ := rfl

theorem andThen_orPanic_some {α β : Type} (msg : String) (v : α) (f : α → Run β) :
    andThen (orPanic msg (some v)) f = f v := rfl

theorem andThen_orPanic_none {α β : Type} (msg : String) (f : α → Run β) :
    andThen (orPanic msg (none : Option α)) f = ⟨[], [], .error (.panicked msg)⟩ := rfl

end Run

section Body

variable {Client : Type} (rt : Libs) (collector : Collector Client) (e : CdnExporter Client)
  (d : DomainBaseInfo)

theorem intDiv_length {α : Type} (s : Int) (xs : List α) (h : xs ≠ []) :
    intDiv s (xs.length : Int) = some (wrap64 (Int.tdiv s (xs.length : Int))) := by
  unfold intDiv
  have : (xs.length : Int) ≠ 0 := by
    cases xs with
    | nil => exact absurd rfl h
    | cons a t => simp; omega
  simp [this]

theorem oneLabel_CdnCloudExporter (dl : List DomainBaseInfo) (pid : String) (rg dy : Int)
    (c : Client) : oneLabel (CdnCloudExporter dl pid rg dy c) :=
  ⟨rfl, rfl, rfl, rfl, rfl, rfl, rfl⟩

theorem collectDomain_fatal_flow (err : NumError)
    (hf : rt.ParseFloat (rt.Sprintf2 (flowHitRateQuot collector e d)) = .error err) :
    collectDomain rt collector e d = ⟨[callOf e d .HitRate], [], .error (.fatal err)⟩ := by
  simp only [flowHitRateQuot, hitRateDataOf] at hf
  simp only [collectDomain, Run.bind_eq, Run.andThen_call, roundStep, hf,
    Run.andThen_orFatal_error, callOf]

theorem collectDomain_fatal_request (fa : F64) (err : NumError)
    (hf : rt.ParseFloat (rt.Sprintf2 (flowHitRateQuot collector e d)) = .ok fa)
    (hr : rt.ParseFloat (rt.Sprintf2 (requestHitRateQuot collector e d)) = .error err) :
    collectDomain rt collector e d = ⟨[callOf e d .HitRate], [], .error (.fatal err)⟩ := by
  simp only [flowHitRateQuot, requestHitRateQuot, hitRateDataOf] at hf hr
  simp only [collectDomain, Run.bind_eq, Run.andThen_call, roundStep, hf, hr,
    Run.andThen_orFatal_ok, Run.andThen_orFatal_error, callOf]

theorem collectDomain_fatal_bandwidth (fa ra : F64) (err : NumError)
    (hf : rt.ParseFloat (rt.Sprintf2 (flowHitRateQuot collector e d)) = .ok fa)
    (hr : rt.ParseFloat (rt.Sprintf2 (requestHitRateQuot collector e d)) = .ok ra)
    (hb : rt.ParseFloat (rt.Sprintf2 (bandWidthQuot collector e d)) = .error err) :
    collectDomain rt collector e d =
      ⟨[callOf e d .HitRate, callOf e d .BandWidth], [], .error (.fatal err)⟩ := by
  simp only [flowHitRateQuot, requestHitRateQuot, bandWidthQuot, hitRateDataOf,
    bandWidthDataOf] at hf hr hb
  simp only [collectDomain, Run.bind_eq, Run.andThen_call, roundStep, hf, hr, hb,
    Run.andThen_orFatal_ok, Run.andThen_orFatal_error, callOf]

theorem collectDomain_panic (fa ra ba : F64)
    (hf : rt.ParseFloat (rt.Sprintf2 (flowHitRateQuot collector e d)) = .ok fa)
    (hr : rt.ParseFloat (rt.Sprintf2 (requestHitRateQuot collector e d)) = .ok ra)
    (hb : rt.ParseFloat (rt.Sprintf2 (bandWidthQuot collector e d)) = .ok ba)
    (hh : httpDataOf collector e d = []) :
    collectDomain rt collector e d =
      ⟨[callOf e d .HitRate, callOf e d .BandWidth, callOf e d .OriginHttpCode4xx], [],
       .error (.panicked "integer divide by zero")⟩ := by
  simp only [flowHitRateQuot, requestHitRateQuot, bandWidthQuot, hitRateDataOf,
    bandWidthDataOf, httpDataOf] at hf hr hb hh
  simp only [collectDomain, Run.bind_eq, Run.andThen_call, roundStep, hf, hr, hb, hh,
    Run.andThen_orFatal_ok, callOf, List.length_nil, Nat.cast_zero, intDiv, if_true,
    Run.andThen_orPanic_none]

theorem collectDomain_fatal_resource (fa ra ba : F64) (err : NumError)
    (hf : rt.ParseFloat (rt.Sprintf2 (flowHitRateQuot collector e d)) = .ok fa)
    (hr : rt.ParseFloat (rt.Sprintf2 (requestHitRateQuot collector e d)) = .ok ra)
    (hb : rt.ParseFloat (rt.Sprintf2 (bandWidthQuot collector e d)) = .ok ba)
    (hh : httpDataOf collector e d ≠ [])
    (hq : rt.ParseFloat (rt.Sprintf2 (resourceCdnRequestQuot collector e d)) = .error err) :
    collectDomain rt collector e d =
      ⟨[callOf e d .HitRate, callOf e d .BandWidth, callOf e d .OriginHttpCode4xx,
        callOf e d .DomainOriginRequestNum], [], .error (.fatal err)⟩ := by
  simp only [flowHitRateQuot, requestHitRateQuot, bandWidthQuot, resourceCdnRequestQuot,
    hitRateDataOf, bandWidthDataOf, resourceCdnRequestDataOf, httpDataOf] at hf hr hb hq hh
  simp only [collectDomain, Run.bind_eq, Run.andThen_call, roundStep, hf, hr, hb, hq,
    Run.andThen_orFatal_ok, Run.andThen_orFatal_error, callOf, intDiv_length _ _ hh,
    Run.andThen_orPanic_some]

theorem collectDomain_ok (he : oneLabel e) (fa ra ba qa : F64)
    (hf : rt.ParseFloat (rt.Sprintf2 (flowHitRateQuot collector e d)) = .ok fa)
    (hr : rt.ParseFloat (rt.Sprintf2 (requestHitRateQuot collector e d)) = .ok ra)
    (hb : rt.ParseFloat (rt.Sprintf2 (bandWidthQuot collector e d)) = .ok ba)
    (hh : httpDataOf collector e d ≠ [])
    (hq : rt.ParseFloat (rt.Sprintf2 (resourceCdnRequestQuot collector e d)) = .ok qa) :
    collectDomain rt collector e d =
      ⟨expectedCalls e d, sentOf collector e d fa ra ba qa, .ok ()⟩ := by
  obtain ⟨h1, h2, h3, h4, h5, h6, h7⟩ := he
  simp only [flowHitRateQuot, requestHitRateQuot, bandWidthQuot, resourceCdnRequestQuot,
    hitRateDataOf, bandWidthDataOf, resourceCdnRequestDataOf, httpDataOf] at hf hr hb hq hh
  simp only [collectDomain, Run.bind_eq, Run.andThen_call, roundStep, hf, hr, hb, hq,
    Run.andThen_orFatal_ok, callOf, intDiv_length _ _ hh, Run.andThen_orPanic_some,
    MustNewConstMetric, List.length_singleton, h1, h2, h3, h4, h5, h6, h7, if_true,
    Run.andThen_send, expectedCalls, httpDataOf, bandwidth95Of, sentOf]
  rfl

end Body


/-! ## The loop over the domain list -/

section Loop

variable {Client : Type} (rt : Libs) (collector : Collector Client) (e : CdnExporter Client)

theorem Run.andThen_assoc {α β γ : Type} (x : Run α) (f : α → Run β) (g : β → Run γ) :
    Run.andThen (Run.andThen x f) g = Run.andThen x (fun a => Run.andThen (f a) g) := by
  obtain ⟨cs, ms, r⟩ := x
  cases r with
  | error a => rfl
  | ok v =>
    simp only [Run.andThen_ok]
    cases h : (f v).res with
    | error a => simp [Run.andThen, h]
    | ok w => simp [Run.andThen, h]

theorem Run.andThen_ret {β : Type} (f : Unit → Run β) : Run.andThen (Run.ret ()) f = f () := rfl

theorem collectLoop_nil : collectLoop rt collector e [] = Run.ret () := rfl

theorem collectLoop_cons (d : DomainBaseInfo) (ds : List DomainBaseInfo) :
    collectLoop rt collector e (d :: ds) =
      Run.andThen (collectDomain rt collector e d) (fun _ => collectLoop rt collector e ds) :=
  rfl

theorem collectLoop_append (pre post : List DomainBaseInfo) :
    collectLoop rt collector e (pre ++ post) =
      Run.andThen (collectLoop rt collector e pre) (fun _ => collectLoop rt collector e post) := by
  induction pre with
  | nil => rfl
  | cons d ds ih =>
    simp only [List.cons_append, collectLoop_cons, ih, Run.andThen_assoc]

/-- An iteration either reaches the sends or stops before the first send. -/
theorem collectDomain_cases (he : oneLabel e) (d : DomainBaseInfo) :
    (∃ fa ra ba qa,
        rt.ParseFloat (rt.Sprintf2 (flowHitRateQuot collector e d)) = .ok fa ∧
        rt.ParseFloat (rt.Sprintf2 (requestHitRateQuot collector e d)) = .ok ra ∧
        rt.ParseFloat (rt.Sprintf2 (bandWidthQuot collector e d)) = .ok ba ∧
        httpDataOf collector e d ≠ [] ∧
        rt.ParseFloat (rt.Sprintf2 (resourceCdnRequestQuot collector e d)) = .ok qa ∧
        collectDomain rt collector e d =
          ⟨expectedCalls e d, sentOf collector e d fa ra ba qa, .ok ()⟩) ∨
    (∃ k a, k < 5 ∧
        collectDomain rt collector e d = ⟨(expectedCalls e d).take k, [], .error a⟩) := by
  cases hf : rt.ParseFloat (rt.Sprintf2 (flowHitRateQuot collector e d)) with
  | error err =>
    exact Or.inr ⟨1, _, by decide, collectDomain_fatal_flow rt collector e d err hf⟩
  | ok fa =>
    cases hr : rt.ParseFloat (rt.Sprintf2 (requestHitRateQuot collector e d)) with
    | error err =>
      exact Or.inr ⟨1, _, by decide, collectDomain_fatal_request rt collector e d fa err hf hr⟩
    | ok ra =>
      cases hb : rt.ParseFloat (rt.Sprintf2 (bandWidthQuot collector e d)) with
      | error err =>
        exact Or.inr ⟨2, _, by decide,
          collectDomain_fatal_bandwidth rt collector e d fa ra err hf hr hb⟩
      | ok ba =>
        by_cases hh : httpDataOf collector e d = []
        · exact Or.inr ⟨3, _, by decide, collectDomain_panic rt collector e d fa ra ba hf hr hb hh⟩
        · cases hq : rt.ParseFloat (rt.Sprintf2 (resourceCdnRequestQuot collector e d)) with
          | error err =>
            exact Or.inr ⟨4, _, by decide,
              collectDomain_fatal_resource rt collector e d fa ra ba err hf hr hb hh hq⟩
          | ok qa =>
            exact Or.inl ⟨fa, ra, ba, qa, rfl, rfl, rfl, hh, rfl,
              collectDomain_ok rt collector e d he fa ra ba qa hf hr hb hh hq⟩

/-- An iteration that does not complete sends nothing. -/
theorem collectDomain_sent_of_abort (he : oneLabel e) (d : DomainBaseInfo) (a : Abort)
    (h : (collectDomain rt collector e d).res = .error a) :
    (collectDomain rt collector e d).sent = [] := by
  rcases collectDomain_cases rt collector e he d with
    ⟨fa, ra, ba, qa, -, -, -, -, -, heq⟩ | ⟨k, b, -, heq⟩
  · rw [heq] at h; cases h
  · rw [heq]

end Loop

/-! ## Rounding to binary64 stays finite below the overflow threshold -/

namespace F64

theorem bitLenAux_zero (fuel : Nat) : bitLenAux fuel 0 = 0 := by
  cases fuel <;> simp [bitLenAux]

theorem bitLenAux_spec : ∀ (fuel n : Nat), n ≤ fuel → n ≠ 0 →
    2 ^ (bitLenAux fuel n - 1) ≤ n ∧ n < 2 ^ bitLenAux fuel n ∧ 1 ≤ bitLenAux fuel n := by
  intro fuel
  induction fuel with
  | zero => intro n h1 h2; omega
  | succ f ih =>
    intro n h1 h2
    simp only [bitLenAux, h2, if_false]
    by_cases h : n / 2 = 0
    · have hn : n = 1 := by omega
      subst hn
      simp [bitLenAux_zero]
    · obtain ⟨a, b, c⟩ := ih (n / 2) (by omega) h
      have e1 : bitLenAux f (n / 2) + 1 - 1 = (bitLenAux f (n / 2) - 1) + 1 := by omega
      rw [e1, pow_succ, pow_succ]
      omega

theorem bitLen_spec (n : Nat) (h : n ≠ 0) :
    2 ^ (bitLen n - 1) ≤ n ∧ n < 2 ^ bitLen n ∧ 1 ≤ bitLen n :=
  bitLenAux_spec n n (le_refl n) h

theorem divRoundEven_le (num den c : Nat) (hd : 0 < den) (h : num ≤ c * den) :
    divRoundEven num den ≤ c := by
  have hm : num / den ≤ c := by
    calc num / den ≤ c * den / den := Nat.div_le_div_right h
      _ = c := Nat.mul_div_cancel _ hd
  have hdm := Nat.div_add_mod num den
  simp only [divRoundEven]
  by_cases hc : num / den = c
  · have hr : num % den = 0 := by
      rw [hc, Nat.mul_comm] at hdm
      omega
    rw [hr, hc]
    have : ¬ (den < 2 * 0 ∨ 2 * 0 = den ∧ c % 2 = 1) := by omega
    rw [if_neg this]
  · split <;> omega

theorem scaled_le_iff (c p q : Nat) (hq : 0 < q) (a : Int) :
    c * (q * 2 ^ a.toNat) ≤ p * 2 ^ (-a).toNat ↔ (c : ℚ) * (2 : ℚ) ^ a ≤ (p : ℚ) / q := by
  have hq' : (0 : ℚ) < q := by exact_mod_cast hq
  rcases le_total 0 a with h | h
  · obtain ⟨n, rfl⟩ := Int.eq_ofNat_of_zero_le h
    have e2 : (-(n : Int)).toNat = 0 := by omega
    simp only [Int.toNat_ofNat, e2, pow_zero, mul_one, zpow_natCast]
    rw [le_div_iff₀ hq']
    constructor
    · intro h1
      have : ((c * (q * 2 ^ n) : Nat) : ℚ) ≤ (p : ℚ) := by exact_mod_cast h1
      push_cast at this
      linarith
    · intro h1
      have : ((c * (q * 2 ^ n) : Nat) : ℚ) ≤ (p : ℚ) := by push_cast; linarith
      exact_mod_cast this
  · obtain ⟨n, hn⟩ := Int.eq_ofNat_of_zero_le (neg_nonneg.mpr h)
    have ha : a = -(n : Int) := by omega
    subst ha
    have e1 : (-(n : Int)).toNat = 0 := by omega
    have e2 : (- -(n : Int)).toNat = n := by omega
    simp only [e1, e2, pow_zero, mul_one, zpow_neg, zpow_natCast]
    have h2 : (0 : ℚ) < 2 ^ n := by positivity
    rw [le_div_iff₀ hq', ← div_eq_mul_inv, div_mul_eq_mul_div, div_le_iff₀ h2]
    constructor
    · intro h1
      have : ((c * q : Nat) : ℚ) ≤ ((p * 2 ^ n : Nat) : ℚ) := by exact_mod_cast h1
      push_cast at this
      linarith
    · intro h1
      have : ((c * q : Nat) : ℚ) ≤ ((p * 2 ^ n : Nat) : ℚ) := by push_cast; linarith
      exact_mod_cast this

theorem ofFields_expo (neg : Bool) (E f : Nat) (h : E < 2047 ∧ f < 4503599627370496) :
    (ofFields neg E f).expo.val = E := by
  simp [ofFields, h]

theorem floorLog2_bounds (p q : Nat) (hp : p ≠ 0) (hq : 0 < q) :
    (2 : ℚ) ^ floorLog2 p q ≤ (p : ℚ) / q ∧ (p : ℚ) / q < (2 : ℚ) ^ (floorLog2 p q + 1) := by
  obtain ⟨p1, p2, p3⟩ := bitLen_spec p hp
  obtain ⟨q1, q2, q3⟩ := bitLen_spec q (by omega)
  have hq' : (0 : ℚ) < q := by exact_mod_cast hq
  have P1 : (2 : ℚ) ^ ((bitLen p : Int) - 1) ≤ p := by
    have : ((2 ^ (bitLen p - 1) : Nat) : ℚ) ≤ p := by exact_mod_cast p1
    have e : ((bitLen p : Int) - 1) = ((bitLen p - 1 : Nat) : Int) := by omega
    rw [e, zpow_natCast]; exact_mod_cast this
  have P2 : (p : ℚ) < (2 : ℚ) ^ (bitLen p : Int) := by
    rw [zpow_natCast]; exact_mod_cast p2
  have Q1 : (2 : ℚ) ^ ((bitLen q : Int) - 1) ≤ q := by
    have : ((2 ^ (bitLen q - 1) : Nat) : ℚ) ≤ q := by exact_mod_cast q1
    have e : ((bitLen q : Int) - 1) = ((bitLen q - 1 : Nat) : Int) := by omega
    rw [e, zpow_natCast]; exact_mod_cast this
  have Q2 : (q : ℚ) < (2 : ℚ) ^ (bitLen q : Int) := by
    rw [zpow_natCast]; exact_mod_cast q2
  have two : (0 : ℚ) < 2 := by norm_num
  have lowk : (2 : ℚ) ^ ((bitLen p : Int) - (bitLen q : Int) - 1) < (p : ℚ) / q := by
    rw [lt_div_iff₀ hq']
    calc (2 : ℚ) ^ ((bitLen p : Int) - (bitLen q : Int) - 1) * q
        < (2 : ℚ) ^ ((bitLen p : Int) - (bitLen q : Int) - 1) * (2 : ℚ) ^ (bitLen q : Int) := by
          apply mul_lt_mul_of_pos_left Q2 (zpow_pos two _)
      _ = (2 : ℚ) ^ ((bitLen p : Int) - 1) := by
          rw [← zpow_add₀ (by norm_num : (2 : ℚ) ≠ 0)]; congr 1; ring
      _ ≤ p := P1
  have upk : (p : ℚ) / q < (2 : ℚ) ^ ((bitLen p : Int) - (bitLen q : Int) + 1) := by
    rw [div_lt_iff₀ hq']
    calc (p : ℚ) < (2 : ℚ) ^ (bitLen p : Int) := P2
      _ = (2 : ℚ) ^ ((bitLen p : Int) - (bitLen q : Int) + 1) *
            (2 : ℚ) ^ ((bitLen q : Int) - 1) := by
          rw [← zpow_add₀ (by norm_num : (2 : ℚ) ≠ 0)]; congr 1; ring
      _ ≤ (2 : ℚ) ^ ((bitLen p : Int) - (bitLen q : Int) + 1) * q := by
          apply mul_le_mul_of_nonneg_left Q1 (le_of_lt (zpow_pos two _))
  have key := scaled_le_iff 1 p q hq ((bitLen p : Int) - (bitLen q : Int))
  simp only [one_mul, Nat.cast_one] at key
  unfold floorLog2
  by_cases hc : q * 2 ^ ((bitLen p : Int) - (bitLen q : Int)).toNat ≤
        p * 2 ^ (-((bitLen p : Int) - (bitLen q : Int))).toNat
  · simp only [hc, if_true]
    exact ⟨key.mp hc, upk⟩
  · simp only [hc, if_false]
    refine ⟨le_of_lt lowk, ?_⟩
    have := lt_of_not_le (fun h => hc (key.mpr h))
    simpa using this

theorem pack_expo_lt (neg : Bool) (m : Nat) (e : Int) (hm : m ≤ 9007199254740992)
    (he : e ≤ 971) (hc : m = 9007199254740992 → e ≤ 970) :
    (pack neg m e).expo.val < 2047 := by
  unfold pack
  split
  · next h =>
    have := hc h
    rw [ofFields_expo _ _ _ ⟨by omega, by norm_num⟩]; omega
  · split
    · next h1 h2 => rw [ofFields_expo _ _ _ ⟨by norm_num, h2⟩]; norm_num
    · next h1 h2 => rw [ofFields_expo _ _ _ ⟨by omega, by omega⟩]; omega

set_option exponentiation.threshold 1100 in
/-- A quotient not above the largest finite binary64 rounds to a finite value. -/
theorem roundNE_expo_lt (neg : Bool) (p q : Nat) (hq : 0 < q)
    (hp : p ≤ 9007199254740991 * 2 ^ 971 * q) : (roundNE neg p q).expo.val < 2047 := by
  unfold roundNE
  by_cases hp0 : p = 0
  · simp [hp0]
  rw [if_neg hp0]
  obtain ⟨lo, up⟩ := floorLog2_bounds p q hp0 hq
  have hq' : (0 : ℚ) < q := by exact_mod_cast hq
  have hx : (p : ℚ) / q ≤ 9007199254740991 * 2 ^ 971 := by
    rw [div_le_iff₀ hq']
    have h0 : ((p : Nat) : ℚ) ≤ ((9007199254740991 * 2 ^ 971 * q : Nat) : ℚ) :=
      Nat.cast_le.mpr hp
    rw [Nat.cast_mul, Nat.cast_mul, Nat.cast_pow, Nat.cast_ofNat, Nat.cast_ofNat] at h0
    exact h0
  have hfl : floorLog2 p q ≤ 1023 := by
    by_contra hcon
    have h1 : (1024 : Int) ≤ floorLog2 p q := by omega
    have h2 : (2 : ℚ) ^ (1024 : Int) ≤ (2 : ℚ) ^ floorLog2 p q :=
      zpow_le_zpow_right₀ (by norm_num) h1
    have h3 : (2 : ℚ) ^ (1024 : Int) = 9007199254740992 * 2 ^ 971 := by
      rw [show (1024 : Int) = (53 : Int) + ((971 : Nat) : Int) by norm_num,
        zpow_add₀ (by norm_num : (2 : ℚ) ≠ 0), zpow_natCast]
      norm_num
    have h4 : (0 : ℚ) < 2 ^ 971 := by positivity
    generalize (2 : ℚ) ^ 971 = T at h3 h4 hx
    linarith
  have he : max (floorLog2 p q - 52) (-1074) ≤ 971 := by omega
  have hd : 0 < q * 2 ^ (max (floorLog2 p q - 52) (-1074)).toNat := by positivity
  have hm : divRoundEven (p * 2 ^ (-(max (floorLog2 p q - 52) (-1074))).toNat)
      (q * 2 ^ (max (floorLog2 p q - 52) (-1074)).toNat) ≤ 9007199254740992 := by
    apply divRoundEven_le _ _ _ hd
    by_contra hcon
    have h5 : 9007199254740992 * (q * 2 ^ (max (floorLog2 p q - 52) (-1074)).toNat) ≤
        p * 2 ^ (-(max (floorLog2 p q - 52) (-1074))).toNat := by omega
    have h6 := (scaled_le_iff 9007199254740992 p q hq _).mp h5
    have h7 : (2 : ℚ) ^ (floorLog2 p q + 1) ≤
        (2 : ℚ) ^ ((53 : Int) + max (floorLog2 p q - 52) (-1074)) :=
      zpow_le_zpow_right₀ (by norm_num) (by omega)
    have h8 : (2 : ℚ) ^ ((53 : Int) + max (floorLog2 p q - 52) (-1074)) =
        9007199254740992 * (2 : ℚ) ^ (max (floorLog2 p q - 52) (-1074)) := by
      rw [zpow_add₀ (by norm_num : (2 : ℚ) ≠ 0)]
      norm_num
    rw [h8] at h7
    push_cast at h6
    linarith
  apply pack_expo_lt _ _ _ hm he
  intro hmax
  by_contra hcon
  have he971 : max (floorLog2 p q - 52) (-1074) = 971 := by omega
  rw [he971] at hmax
  have h9 : divRoundEven (p * 2 ^ (-(971 : Int)).toNat) (q * 2 ^ (971 : Int).toNat) ≤
      9007199254740991 := by
    apply divRoundEven_le _ _ _ (by positivity)
    have e1 : (-(971 : Int)).toNat = 0 := by decide
    have e2 : (971 : Int).toNat = 971 := by decide
    rw [e1, e2, pow_zero, Nat.mul_one]
    calc p ≤ 9007199254740991 * 2 ^ 971 * q := hp
      _ = 9007199254740991 * (q * 2 ^ 971) := by ring
  omega

end F64

/-! ## The text written by `Sprintf2` is read back by `ParseFloat` -/

section RoundTrip

/-- The ten decimal digit characters. -/
theorem digitChar_mem (k : Nat) (h : k < 10) :
    Nat.digitChar k ∈ ['0', '1', '2', '3', '4', '5', '6', '7', '8', '9'] := by
  interval_cases k <;> decide

theorem digitChar_toNat (k : Nat) (h : k < 10) : (Nat.digitChar k).toNat - 48 = k := by
  interval_cases k <;> decide

theorem decDigit_facts : ∀ c ∈ ['0', '1', '2', '3', '4', '5', '6', '7', '8', '9'],
    c.isDigit = true ∧ c ≠ '+' ∧ c ≠ '-' ∧ c ≠ 'i' ∧ c ≠ 'I' ∧ c ≠ 'n' ∧ c ≠ 'N' ∧
      c.toLower ≠ 'i' ∧ c ≠ '.' := by
  decide

theorem digitsVal_append_singleton (l : List Char) (c : Char) :
    digitsVal (l ++ [c]) = 10 * digitsVal l + (c.toNat - 48) := by
  simp [digitsVal, List.foldl_append]

theorem toDigitsCore_spec : ∀ (fuel n : Nat) (ds : List Char), n < fuel →
    ∃ l, Nat.toDigitsCore 10 fuel n ds = l ++ ds ∧ l ≠ [] ∧
      (∀ c ∈ l, c ∈ ['0', '1', '2', '3', '4', '5', '6', '7', '8', '9']) ∧ digitsVal l = n := by
  intro fuel
  induction fuel with
  | zero => intro n ds h; omega
  | succ f ih =>
    intro n ds h
    have hd := digitChar_mem (n % 10) (Nat.mod_lt _ (by norm_num))
    have hv := digitChar_toNat (n % 10) (Nat.mod_lt _ (by norm_num))
    simp only [Nat.toDigitsCore]
    by_cases h0 : n / 10 = 0
    · simp only [h0, if_true]
      refine ⟨[Nat.digitChar (n % 10)], rfl, by simp, ?_, ?_⟩
      · intro c hc
        rw [List.mem_singleton] at hc
        rw [hc]; exact hd
      · have := digitsVal_append_singleton [] (Nat.digitChar (n % 10))
        simp only [List.nil_append] at this
        rw [this, hv]
        simp [digitsVal]
        omega
    · simp only [h0, if_false]
      obtain ⟨l, e1, e2, e3, e4⟩ := ih (n / 10) (Nat.digitChar (n % 10) :: ds) (by omega)
      refine ⟨l ++ [Nat.digitChar (n % 10)], by simp [e1], by simp, ?_, ?_⟩
      · intro c hc
        rw [List.mem_append, List.mem_singleton] at hc
        rcases hc with hc | hc
        · exact e3 c hc
        · rw [hc]; exact hd
      · rw [digitsVal_append_singleton, e4, hv]
        omega

theorem toDigits_spec (n : Nat) :
    Nat.toDigits 10 n ≠ [] ∧
      (∀ c ∈ Nat.toDigits 10 n, c ∈ ['0', '1', '2', '3', '4', '5', '6', '7', '8', '9']) ∧
      digitsVal (Nat.toDigits 10 n) = n := by
  obtain ⟨l, e1, e2, e3, e4⟩ := toDigitsCore_spec (n + 1) n [] (by omega)
  have : Nat.toDigits 10 n = l := by
    simp [Nat.toDigits, e1]
  rw [this]
  exact ⟨e2, e3, e4⟩


theorem takeWhile_digits (l r : List Char) (a : Char) (hl : ∀ c ∈ l, c.isDigit = true)
    (ha : a.isDigit = false) :
    (l ++ a :: r).takeWhile Char.isDigit = l ∧ (l ++ a :: r).dropWhile Char.isDigit = a :: r := by
  induction l with
  | nil => simp [List.takeWhile, List.dropWhile, ha]
  | cons x xs ih =>
    have hx : x.isDigit = true := hl x (List.mem_cons_self _ _)
    have := ih (fun c hc => hl c (List.mem_cons_of_mem _ hc))
    simp [List.takeWhile, List.dropWhile, hx, this]

theorem goSpecial_digit (c : Char) (r : List Char)
    (hc : c ∈ ['0', '1', '2', '3', '4', '5', '6', '7', '8', '9']) :
    goSpecial (c :: r) = none := by
  obtain ⟨-, h1, h2, h3, h4, h5, h6, -, -⟩ := decDigit_facts c hc
  simp [goSpecial, h1, h2, h3, h4, h5, h6]

theorem goSpecial_minus_digit (c : Char) (r : List Char)
    (hc : c ∈ ['0', '1', '2', '3', '4', '5', '6', '7', '8', '9']) :
    goSpecial ('-' :: c :: r) = none := by
  obtain ⟨-, -, -, -, -, -, -, h7, -⟩ := decDigit_facts c hc
  simp [goSpecial, h7]

theorem goDecimal_render (neg : Bool) (c0 : Char) (I : List Char) (d1 d2 : Char)
    (h0 : c0 ∈ ['0', '1', '2', '3', '4', '5', '6', '7', '8', '9'])
    (hI : ∀ c ∈ I, c ∈ ['0', '1', '2', '3', '4', '5', '6', '7', '8', '9'])
    (h1 : d1 ∈ ['0', '1', '2', '3', '4', '5', '6', '7', '8', '9'])
    (h2 : d2 ∈ ['0', '1', '2', '3', '4', '5', '6', '7', '8', '9'])
    (hfin : (F64.roundNE neg (digitsVal ((c0 :: I) ++ [d1, d2])) 100).isInf = false) :
    goParseFloat (String.mk ((if neg then ['-'] else []) ++ (c0 :: I) ++ ['.', d1, d2])) =
      .ok (F64.roundNE neg (digitsVal ((c0 :: I) ++ [d1, d2])) 100) := by
  have hall : ∀ c ∈ c0 :: I, c.isDigit = true := by
    intro c hc
    rcases List.mem_cons.mp hc with h | h
    · rw [h]; exact (decDigit_facts c0 h0).1
    · exact (decDigit_facts c (hI c h)).1
  obtain ⟨tw, dw⟩ := takeWhile_digits (c0 :: I) [d1, d2] '.' hall (by decide)
  have hd1 := (decDigit_facts d1 h1).1
  have hd2 := (decDigit_facts d2 h2).1
  obtain ⟨-, hp, hm, -⟩ := decDigit_facts c0 h0
  have hpow : (10 : Nat) ^ ([d1, d2] : List Char).length = 100 := by norm_num
  simp only [List.cons_append] at tw dw hfin
  cases neg with
  | false =>
    have hs := goSpecial_digit c0 (I ++ ['.', d1, d2]) h0
    simp [goParseFloat, goDecimal, hs, tw, dw, hd1, hd2, hpow, hfin, hp, hm]
  | true =>
    have hs := goSpecial_minus_digit c0 (I ++ ['.', d1, d2]) h0
    simp [goParseFloat, goDecimal, hs, tw, dw, hd1, hd2, hpow, hfin, hp, hm]


theorem F64.isInf_of_expo_lt (x : F64) (h : x.expo.val < 2047) : x.isInf = false := by
  simp [F64.isInf]
  intro h2; omega

theorem F64.expo_ne_of_finite (x : F64) (h1 : x.isNaN = false) (h2 : x.isInf = false) :
    x.expo.val ≠ 2047 := by
  intro h
  simp [F64.isNaN, F64.isInf, h] at h1 h2
  exact h2 h1

set_option exponentiation.threshold 1100 in
theorem F64.cents_le (x : F64) (h : x.expo.val ≠ 2047) :
    x.cents ≤ 9007199254740991 * 2 ^ 971 * 100 := by
  have hf := x.frac.isLt
  have he := x.expo.isLt
  have hm : x.mant ≤ 9007199254740991 := by
    unfold F64.mant; split <;> omega
  have hx : x.exp2.toNat ≤ 971 := by
    unfold F64.exp2; split <;> omega
  unfold F64.cents
  apply F64.divRoundEven_le _ _ _ (by positivity)
  have h1 : 2 ^ x.exp2.toNat ≤ 2 ^ 971 := Nat.pow_le_pow_right (by norm_num) hx
  have h2 : 1 ≤ 2 ^ (-x.exp2).toNat := Nat.one_le_two_pow
  calc x.mant * 100 * 2 ^ x.exp2.toNat
      ≤ 9007199254740991 * 100 * 2 ^ 971 :=
        Nat.mul_le_mul (Nat.mul_le_mul_right _ hm) h1
    _ = 9007199254740991 * 2 ^ 971 * 100 * 1 := by ring
    _ ≤ 9007199254740991 * 2 ^ 971 * 100 * 2 ^ (-x.exp2).toNat :=
        Nat.mul_le_mul_left _ h2

theorem digitsVal_append_pair (l : List Char) (N : Nat) (h : digitsVal l = N / 100) :
    digitsVal (l ++ [Nat.digitChar (N % 100 / 10), Nat.digitChar (N % 10)]) = N := by
  have e : l ++ [Nat.digitChar (N % 100 / 10), Nat.digitChar (N % 10)] =
      (l ++ [Nat.digitChar (N % 100 / 10)]) ++ [Nat.digitChar (N % 10)] := by simp
  rw [e, digitsVal_append_singleton, digitsVal_append_singleton, h,
    digitChar_toNat _ (by omega), digitChar_toNat _ (by omega)]
  omega

/-- The rounding step of `Collect` never fails with the Go library: the text written by
`Sprintf("%.2f", x)` is read back by `ParseFloat` as `round2 x`. -/
theorem go_round_trip (x : F64) : goLibs.ParseFloat (goLibs.Sprintf2 x) = .ok (F64.round2 x) := by
  show goParseFloat (goSprintf2 x) = .ok (F64.round2 x)
  unfold goSprintf2 F64.round2
  cases hn : x.isNaN with
  | true => simp; decide
  | false =>
    cases hi : x.isInf with
    | true =>
      cases hs : x.sign <;> simp <;> decide
    | false =>
      simp only [Bool.false_eq_true, if_false]
      have hfin := F64.expo_ne_of_finite x hn hi
      obtain ⟨t1, t2, t3⟩ := toDigits_spec (x.cents / 100)
      cases hI : Nat.toDigits 10 (x.cents / 100) with
      | nil => exact absurd hI t1
      | cons c0 I =>
        rw [hI] at t2 t3
        have hv := digitsVal_append_pair (c0 :: I) x.cents t3
        have hb : (F64.roundNE x.sign x.cents 100).isInf = false := by
          apply F64.isInf_of_expo_lt
          exact F64.roundNE_expo_lt _ _ _ (by norm_num) (F64.cents_le x hfin)
        have := goDecimal_render x.sign c0 I (Nat.digitChar (x.cents % 100 / 10))
          (Nat.digitChar (x.cents % 10)) (t2 c0 (List.mem_cons_self _ _))
          (fun c hc => t2 c (List.mem_cons_of_mem _ hc))
          (digitChar_mem _ (by omega)) (digitChar_mem _ (by omega)) (by rw [hv]; exact hb)
        rw [hv] at this
        exact this

end RoundTrip

/-! ## The loops compute the sums of the specification -/

section Sums

theorem hitRateSums_eq_aux (L : List HitRateInfo) (a b : F64) :
    L.foldl (fun acc point => (acc.1 + point.FlowHitRate, acc.2 + point.RequestHitRate)) (a, b) =
      ((L.map (fun p => p.FlowHitRate)).foldl (fun acc x => acc + x) a,
       (L.map (fun p => p.RequestHitRate)).foldl (fun acc x => acc + x) b) := by
  induction L generalizing a b with
  | nil => rfl
  | cons p t ih => simp only [List.foldl_cons, List.map_cons, ih]

theorem hitRateSums_fst (L : List HitRateInfo) :
    (hitRateSums L).1 = F64.sum (L.map (fun p => p.FlowHitRate)) := by
  simp only [hitRateSums, hitRateSums_eq_aux, F64.sum]

theorem hitRateSums_snd (L : List HitRateInfo) :
    (hitRateSums L).2 = F64.sum (L.map (fun p => p.RequestHitRate)) := by
  simp only [hitRateSums, hitRateSums_eq_aux, F64.sum]

theorem bandWidthSumOf_eq (L : List BandwidthInfo) :
    bandWidthSumOf L = F64.sum (L.map (fun p => p.CdnBandwidth)) := by
  simp only [bandWidthSumOf, F64.sum, List.foldl_map]

theorem resourceCdnRequestSumOf_eq (L : List RequestInfo) :
    resourceCdnRequestSumOf L = F64.sum (L.map (fun p => p.CdnRequest)) := by
  simp only [resourceCdnRequestSumOf, F64.sum, List.foldl_map]

theorem httpSums_eq_aux (L : List HttpCodeInfo) (s : HttpSums) :
    (L.foldl
      (fun acc point =>
        ({ http1xxSum := intAdd acc.http1xxSum point.Http1XX.Total
           http2xxSum := intAdd acc.http2xxSum point.Http2XX.Total
           http3xxSum := intAdd acc.http3xxSum point.Http3XX.Total
           http4xxSum := intAdd acc.http4xxSum point.Http4XX.Total
           http5xxSum := intAdd acc.http5xxSum point.Http5XX.Total } : HttpSums)) s).http4xxSum =
        (L.map (fun p => p.Http4XX.Total)).foldl intAdd s.http4xxSum ∧
    (L.foldl
      (fun acc point =>
        ({ http1xxSum := intAdd acc.http1xxSum point.Http1XX.Total
           http2xxSum := intAdd acc.http2xxSum point.Http2XX.Total
           http3xxSum := intAdd acc.http3xxSum point.Http3XX.Total
           http4xxSum := intAdd acc.http4xxSum point.Http4XX.Total
           http5xxSum := intAdd acc.http5xxSum point.Http5XX.Total } : HttpSums)) s).http5xxSum =
        (L.map (fun p => p.Http5XX.Total)).foldl intAdd s.http5xxSum := by
  induction L generalizing s with
  | nil => exact ⟨rfl, rfl⟩
  | cons p t ih =>
    simp only [List.foldl_cons, List.map_cons]
    exact ih _

theorem httpSums_http4xxSum (L : List HttpCodeInfo) :
    (httpSums L).http4xxSum = intSum (L.map (fun p => p.Http4XX.Total)) :=
  (httpSums_eq_aux L ⟨0, 0, 0, 0, 0⟩).1

theorem httpSums_http5xxSum (L : List HttpCodeInfo) :
    (httpSums L).http5xxSum = intSum (L.map (fun p => p.Http5XX.Total)) :=
  (httpSums_eq_aux L ⟨0, 0, 0, 0, 0⟩).2

end Sums

/-! ## A scrape with the Go library -/

section GoScrape

variable {Client : Type} (collector : Collector Client) (e : CdnExporter Client)

/-- With the Go library an iteration whose HTTP-code series is non-empty sends the seven
observations of the specification. -/
theorem collectDomain_go (he : oneLabel e) (d : DomainBaseInfo)
    (hh : httpDataOf collector e d ≠ []) :
    collectDomain goLibs collector e d =
      ⟨expectedCalls e d, specObservations collector e d, .ok ()⟩ := by
  rw [collectDomain_ok goLibs collector e d he _ _ _ _ (go_round_trip _) (go_round_trip _)
    (go_round_trip _) hh (go_round_trip _)]
  simp only [sentOf, specObservations, specMean2, specIntMean, flowHitRateQuot,
    requestHitRateQuot, bandWidthQuot, resourceCdnRequestQuot, hitRateSums_fst, hitRateSums_snd,
    bandWidthSumOf_eq, resourceCdnRequestSumOf_eq, httpSums_http4xxSum, httpSums_http5xxSum,
    float64Len, List.length_map]

/-- With the Go library an iteration whose HTTP-code series is empty panics at the integer
division, after three calls and before any send. -/
theorem collectDomain_go_empty (d : DomainBaseInfo) (hh : httpDataOf collector e d = []) :
    collectDomain goLibs collector e d =
      ⟨[callOf e d .HitRate, callOf e d .BandWidth, callOf e d .OriginHttpCode4xx], [],
       .error (.panicked "integer divide by zero")⟩ :=
  collectDomain_panic goLibs collector e d _ _ _ (go_round_trip _) (go_round_trip _)
    (go_round_trip _) hh

theorem collectLoop_go (he : oneLabel e) (ds : List DomainBaseInfo)
    (hh : ∀ d ∈ ds, httpDataOf collector e d ≠ []) :
    collectLoop goLibs collector e ds =
      ⟨ds.flatMap (expectedCalls e), ds.flatMap (specObservations collector e), .ok ()⟩ := by
  induction ds with
  | nil => rfl
  | cons d t ih =>
    rw [collectLoop_cons, collectDomain_go collector e he d (hh d (List.mem_cons_self _ _)),
      Run.andThen_ok, ih (fun x hx => hh x (List.mem_cons_of_mem _ hx))]
    simp only [List.flatMap_cons]

end GoScrape

/-! ## What an iteration reads from the data source -/

section Feed

variable {Client : Type} (rt : Libs) (c1 c2 : Collector Client) (e : CdnExporter Client)
  (d : DomainBaseInfo)

theorem quot_of_sameFeed_hitRate (h : sameFeed .HitRate c1 c2 e d) :
    flowHitRateQuot c2 e d = flowHitRateQuot c1 e d ∧
      requestHitRateQuot c2 e d = requestHitRateQuot c1 e d := by
  simp only [sameFeed] at h
  simp only [flowHitRateQuot, requestHitRateQuot, h, and_self]

theorem quot_of_sameFeed_bandWidth (h : sameFeed .BandWidth c1 c2 e d) :
    bandWidthQuot c2 e d = bandWidthQuot c1 e d := by
  simp only [sameFeed] at h
  simp only [bandWidthQuot, h]

theorem quot_of_sameFeed_request (h : sameFeed .DomainOriginRequestNum c1 c2 e d) :
    resourceCdnRequestQuot c2 e d = resourceCdnRequestQuot c1 e d := by
  simp only [sameFeed] at h
  simp only [resourceCdnRequestQuot, h]

theorem http_of_sameFeed (h : sameFeed .OriginHttpCode4xx c1 c2 e d) :
    (httpDataOf c2 e d).length = (httpDataOf c1 e d).length ∧
    (httpSums (httpDataOf c2 e d)).http4xxSum = (httpSums (httpDataOf c1 e d)).http4xxSum ∧
    (httpSums (httpDataOf c2 e d)).http5xxSum = (httpSums (httpDataOf c1 e d)).http5xxSum := by
  simp only [sameFeed] at h
  have h4 : (httpDataOf c1 e d).map (fun p => p.Http4XX.Total) =
      (httpDataOf c2 e d).map (fun p => p.Http4XX.Total) := by
    have := congrArg (List.map Prod.fst) h
    simpa [List.map_map, Function.comp] using this
  have h5 : (httpDataOf c1 e d).map (fun p => p.Http5XX.Total) =
      (httpDataOf c2 e d).map (fun p => p.Http5XX.Total) := by
    have := congrArg (List.map Prod.snd) h
    simpa [List.map_map, Function.comp] using this
  have hl := congrArg List.length h
  simp only [List.length_map] at hl
  exact ⟨hl.symm, by rw [httpSums_http4xxSum, httpSums_http4xxSum, h4],
    by rw [httpSums_http5xxSum, httpSums_http5xxSum, h5]⟩

theorem http_nil_of_sameFeed (h : sameFeed .OriginHttpCode4xx c1 c2 e d) :
    httpDataOf c2 e d = [] ↔ httpDataOf c1 e d = [] := by
  have hl := (http_of_sameFeed c1 c2 e d h).1
  rw [← List.length_eq_zero, ← List.length_eq_zero (l := httpDataOf c1 e d), hl]

theorem sentOf_congr (fa ra ba qa : F64) (hh : sameFeed .OriginHttpCode4xx c1 c2 e d)
    (hp : sameFeed .BandWidth95 c1 c2 e d) :
    sentOf c2 e d fa ra ba qa = sentOf c1 e d fa ra ba qa := by
  obtain ⟨hl, h4, h5⟩ := http_of_sameFeed c1 c2 e d hh
  simp only [sameFeed] at hp
  simp only [sentOf, hl, h4, h5, hp]

/-- An iteration depends on the data source only through what it reads from the responses
to the calls it makes. -/
theorem collectDomain_congr (he : oneLabel e)
    (h : ∀ op, callOf e d op ∈ (collectDomain rt c1 e d).calls → sameFeed op c1 c2 e d) :
    collectDomain rt c2 e d = collectDomain rt c1 e d := by
  cases hf : rt.ParseFloat (rt.Sprintf2 (flowHitRateQuot c1 e d)) with
  | error err =>
    have e1 := collectDomain_fatal_flow rt c1 e d err hf
    rw [e1] at h ⊢
    obtain ⟨q1, -⟩ := quot_of_sameFeed_hitRate c1 c2 e d (h .HitRate (by simp))
    exact collectDomain_fatal_flow rt c2 e d err (by rw [q1]; exact hf)
  | ok fa =>
    cases hr : rt.ParseFloat (rt.Sprintf2 (requestHitRateQuot c1 e d)) with
    | error err =>
      have e1 := collectDomain_fatal_request rt c1 e d fa err hf hr
      rw [e1] at h ⊢
      obtain ⟨q1, q2⟩ := quot_of_sameFeed_hitRate c1 c2 e d (h .HitRate (by simp))
      exact collectDomain_fatal_request rt c2 e d fa err (by rw [q1]; exact hf)
        (by rw [q2]; exact hr)
    | ok ra =>
      cases hb : rt.ParseFloat (rt.Sprintf2 (bandWidthQuot c1 e d)) with
      | error err =>
        have e1 := collectDomain_fatal_bandwidth rt c1 e d fa ra err hf hr hb
        rw [e1] at h ⊢
        obtain ⟨q1, q2⟩ := quot_of_sameFeed_hitRate c1 c2 e d (h .HitRate (by simp))
        have q3 := quot_of_sameFeed_bandWidth c1 c2 e d (h .BandWidth (by simp))
        exact collectDomain_fatal_bandwidth rt c2 e d fa ra err (by rw [q1]; exact hf)
          (by rw [q2]; exact hr) (by rw [q3]; exact hb)
      | ok ba =>
        by_cases hh : httpDataOf c1 e d = []
        · have e1 := collectDomain_panic rt c1 e d fa ra ba hf hr hb hh
          rw [e1] at h ⊢
          obtain ⟨q1, q2⟩ := quot_of_sameFeed_hitRate c1 c2 e d (h .HitRate (by simp))
          have q3 := quot_of_sameFeed_bandWidth c1 c2 e d (h .BandWidth (by simp))
          have q4 := http_nil_of_sameFeed c1 c2 e d (h .OriginHttpCode4xx (by simp))
          exact collectDomain_panic rt c2 e d fa ra ba (by rw [q1]; exact hf)
            (by rw [q2]; exact hr) (by rw [q3]; exact hb) (q4.mpr hh)
        · cases hq : rt.ParseFloat (rt.Sprintf2 (resourceCdnRequestQuot c1 e d)) with
          | error err =>
            have e1 := collectDomain_fatal_resource rt c1 e d fa ra ba err hf hr hb hh hq
            rw [e1] at h ⊢
            obtain ⟨q1, q2⟩ := quot_of_sameFeed_hitRate c1 c2 e d (h .HitRate (by simp))
            have q3 := quot_of_sameFeed_bandWidth c1 c2 e d (h .BandWidth (by simp))
            have q4 := http_nil_of_sameFeed c1 c2 e d (h .OriginHttpCode4xx (by simp))
            have q5 := quot_of_sameFeed_request c1 c2 e d (h .DomainOriginRequestNum (by simp))
            exact collectDomain_fatal_resource rt c2 e d fa ra ba err (by rw [q1]; exact hf)
              (by rw [q2]; exact hr) (by rw [q3]; exact hb) (fun x => hh (q4.mp x))
              (by rw [q5]; exact hq)
          | ok qa =>
            have e1 := collectDomain_ok rt c1 e d he fa ra ba qa hf hr hb hh hq
            rw [e1] at h ⊢
            simp only [expectedCalls] at h
            obtain ⟨q1, q2⟩ := quot_of_sameFeed_hitRate c1 c2 e d (h .HitRate (by simp))
            have q3 := quot_of_sameFeed_bandWidth c1 c2 e d (h .BandWidth (by simp))
            have q4 := http_nil_of_sameFeed c1 c2 e d (h .OriginHttpCode4xx (by simp))
            have q5 := quot_of_sameFeed_request c1 c2 e d (h .DomainOriginRequestNum (by simp))
            rw [collectDomain_ok rt c2 e d he fa ra ba qa (by rw [q1]; exact hf)
              (by rw [q2]; exact hr) (by rw [q3]; exact hb) (fun x => hh (q4.mp x))
              (by rw [q5]; exact hq),
              sentOf_congr c1 c2 e d fa ra ba qa (h .OriginHttpCode4xx (by simp))
                (h .BandWidth95 (by simp))]

theorem collectLoop_congr (he : oneLabel e) (ds : List DomainBaseInfo)
    (h : ∀ d ∈ ds, ∀ op, callOf e d op ∈ (collectLoop rt c1 e ds).calls → sameFeed op c1 c2 e d) :
    collectLoop rt c2 e ds = collectLoop rt c1 e ds := by
  induction ds with
  | nil => rfl
  | cons d t ih =>
    rw [collectLoop_cons, collectLoop_cons]
    have hd : collectDomain rt c2 e d = collectDomain rt c1 e d := by
      apply collectDomain_congr rt c1 c2 e d he
      intro op hop
      apply h d (List.mem_cons_self _ _) op
      rw [collectLoop_cons]
      generalize collectDomain rt c1 e d = x at hop
      obtain ⟨cs, ms, r⟩ := x
      cases r with
      | error a => exact hop
      | ok v => exact List.mem_append_left _ hop
    rw [hd]
    generalize hx : collectDomain rt c1 e d = x at h
    obtain ⟨cs, ms, r⟩ := x
    cases r with
    | error a => rw [Run.andThen_error, Run.andThen_error]
    | ok v =>
      rw [Run.andThen_ok, Run.andThen_ok, ih]
      intro d2 hd2 op hop
      apply h d2 (List.mem_cons_of_mem _ hd2) op
      rw [collectLoop_cons, hx, Run.andThen_ok]
      exact List.mem_append_right _ hop

end Feed

/-! ## Positions in the output of a scrape -/

section Slots

variable {Client : Type} (rt : Libs) (collector : Collector Client) (e : CdnExporter Client)

theorem sentOf_length (d : DomainBaseInfo) (fa ra ba qa : F64) :
    (sentOf collector e d fa ra ba qa).length = 7 := rfl

/-- The metric at position `j` of the output was sent by the iteration of the domain at
position `j / 7`, which reached its sends, as its send number `j % 7`. -/
theorem collectLoop_slot (he : oneLabel e) (ds : List DomainBaseInfo) (j : Nat) (m : Metric)
    (h : (collectLoop rt collector e ds).sent[j]? = some m) :
    ∃ d fa ra ba qa, ds[j / 7]? = some d ∧
      rt.ParseFloat (rt.Sprintf2 (flowHitRateQuot collector e d)) = .ok fa ∧
      rt.ParseFloat (rt.Sprintf2 (requestHitRateQuot collector e d)) = .ok ra ∧
      rt.ParseFloat (rt.Sprintf2 (bandWidthQuot collector e d)) = .ok ba ∧
      httpDataOf collector e d ≠ [] ∧
      rt.ParseFloat (rt.Sprintf2 (resourceCdnRequestQuot collector e d)) = .ok qa ∧
      (sentOf collector e d fa ra ba qa)[j % 7]? = some m := by
  induction ds generalizing j with
  | nil => simp [collectLoop_nil, Run.ret] at h
  | cons d t ih =>
    rw [collectLoop_cons] at h
    rcases collectDomain_cases rt collector e he d with
      ⟨fa, ra, ba, qa, h1, h2, h3, h4, h5, heq⟩ | ⟨k, a, -, heq⟩
    · rw [heq, Run.andThen_ok] at h
      simp only at h
      by_cases hj : j < 7
      · rw [List.getElem?_append_left (by rw [sentOf_length]; exact hj)] at h
        refine ⟨d, fa, ra, ba, qa, ?_, h1, h2, h3, h4, h5, ?_⟩
        · rw [Nat.div_eq_of_lt hj]; simp
        · rw [Nat.mod_eq_of_lt hj]; exact h
      · rw [List.getElem?_append_right (by rw [sentOf_length]; omega), sentOf_length] at h
        obtain ⟨d2, fa2, ra2, ba2, qa2, g0, g1, g2, g3, g4, g5, g6⟩ := ih (j - 7) h
        refine ⟨d2, fa2, ra2, ba2, qa2, ?_, g1, g2, g3, g4, g5, ?_⟩
        · have e1 : j / 7 = (j - 7) / 7 + 1 := by omega
          rw [e1, List.getElem?_cons_succ]; exact g0
        · have e2 : j % 7 = (j - 7) % 7 := by omega
          rw [e2]; exact g6
    · rw [heq, Run.andThen_error] at h
      simp at h

/-- The calls made are an initial part of the five calls per domain, in list order. -/
theorem collectLoop_calls_initial (he : oneLabel e) (ds : List DomainBaseInfo) :
    ∃ rest, ds.flatMap (expectedCalls e) = (collectLoop rt collector e ds).calls ++ rest := by
  induction ds with
  | nil => exact ⟨[], rfl⟩
  | cons d t ih =>
    obtain ⟨rest, hrest⟩ := ih
    rw [collectLoop_cons]
    rcases collectDomain_cases rt collector e he d with
      ⟨fa, ra, ba, qa, -, -, -, -, -, heq⟩ | ⟨k, a, -, heq⟩
    · rw [heq, Run.andThen_ok]
      exact ⟨rest, by simp only [List.flatMap_cons, hrest, List.append_assoc]⟩
    · rw [heq, Run.andThen_error]
      refine ⟨(expectedCalls e d).drop k ++ t.flatMap (expectedCalls e), ?_⟩
      simp only [List.flatMap_cons]
      rw [← List.append_assoc, List.take_append_drop]

/-- A scrape that completes made the five calls of every domain and sent the seven metrics
of every domain. -/
theorem collectLoop_completed (he : oneLabel e) (ds : List DomainBaseInfo)
    (h : (collectLoop rt collector e ds).res = .ok ()) :
    (collectLoop rt collector e ds).calls = ds.flatMap (expectedCalls e) ∧
      (collectLoop rt collector e ds).sent.length = 7 * ds.length := by
  induction ds with
  | nil => exact ⟨rfl, rfl⟩
  | cons d t ih =>
    rw [collectLoop_cons] at h ⊢
    rcases collectDomain_cases rt collector e he d with
      ⟨fa, ra, ba, qa, -, -, -, -, -, heq⟩ | ⟨k, a, -, heq⟩
    · rw [heq, Run.andThen_ok] at h ⊢
      obtain ⟨i1, i2⟩ := ih h
      simp only [i1, List.flatMap_cons, List.length_append, sentOf_length, i2, List.length_cons,
        true_and]
      omega
    · rw [heq, Run.andThen_error] at h
      cases h

/-- An iteration in which a rounding step fails sends nothing and stops the scrape. -/
theorem collectDomain_round_fails (he : oneLabel e) (d : DomainBaseInfo)
    (h : (∃ err, rt.ParseFloat (rt.Sprintf2 (flowHitRateQuot collector e d)) = .error err) ∨
      (∃ err, rt.ParseFloat (rt.Sprintf2 (requestHitRateQuot collector e d)) = .error err) ∨
      (∃ err, rt.ParseFloat (rt.Sprintf2 (bandWidthQuot collector e d)) = .error err) ∨
      (∃ err, rt.ParseFloat (rt.Sprintf2 (resourceCdnRequestQuot collector e d)) = .error err)) :
    (collectDomain rt collector e d).sent = [] ∧
      ∃ a, (collectDomain rt collector e d).res = .error a := by
  rcases collectDomain_cases rt collector e he d with
    ⟨fa, ra, ba, qa, h1, h2, h3, -, h5, -⟩ | ⟨k, a, -, heq⟩
  · rcases h with ⟨err, h⟩ | ⟨err, h⟩ | ⟨err, h⟩ | ⟨err, h⟩
    · rw [h1] at h; cases h
    · rw [h2] at h; cases h
    · rw [h3] at h; cases h
    · rw [h5] at h; cases h
  · rw [heq]; exact ⟨rfl, a, rfl⟩

end Slots

/-! ## Properties of `Describe` and `Collect` -/

section Claims

variable {Client : Type}

theorem specObservations_length (collector : Collector Client) (e : CdnExporter Client)
    (d : DomainBaseInfo) : (specObservations collector e d).length = 7 := rfl

theorem flatMap_specObservations_length (collector : Collector Client) (e : CdnExporter Client)
    (ds : List DomainBaseInfo) :
    (ds.flatMap (specObservations collector e)).length = 7 * ds.length := by
  induction ds with
  | nil => rfl
  | cons d t ih =>
    simp only [List.flatMap_cons, List.length_append, specObservations_length, ih,
      List.length_cons]
    omega

/-- The loop does not read the domain list stored in the exporter. -/
theorem collectLoop_domainList (rt : Libs) (collector : Collector Client)
    (dl1 dl2 : List DomainBaseInfo) (pid : String) (rg dy : Int) (c : Client)
    (ds : List DomainBaseInfo) :
    collectLoop rt collector (CdnCloudExporter dl1 pid rg dy c) ds =
      collectLoop rt collector (CdnCloudExporter dl2 pid rg dy c) ds := by
  induction ds with
  | nil => rfl
  | cons d t ih =>
    rw [collectLoop_cons, collectLoop_cons, ih]
    rfl

/-- With the Go library, the metrics of a domain reached by the scrape stand at the seven
positions of its iteration. -/
theorem collect_go_at (collector : Collector Client) (pre post : List DomainBaseInfo)
    (d : DomainBaseInfo) (pid : String) (rg dy : Int) (c : Client)
    (hh : ∀ x ∈ pre ++ [d],
      (collector.RetrieveOriginHttpCode4xx x.DomainId pid rg dy c).HttpCodeDetail ≠ [])
    (k : Nat) (hk : k < 7) :
    (Collect goLibs collector (CdnCloudExporter (pre ++ d :: post) pid rg dy c)).sent[
        7 * pre.length + k]? =
      (specObservations collector (CdnCloudExporter (pre ++ d :: post) pid rg dy c) d)[k]? := by
  have he := oneLabel_CdnCloudExporter (pre ++ d :: post) pid rg dy c
  have h1 : ∀ x ∈ pre,
      httpDataOf collector (CdnCloudExporter (pre ++ d :: post) pid rg dy c) x ≠ [] :=
    fun x hx => hh x (List.mem_append_left _ hx)
  have h2 : httpDataOf collector (CdnCloudExporter (pre ++ d :: post) pid rg dy c) d ≠ [] :=
    hh d (List.mem_append_right _ (List.mem_singleton_self d))
  show (collectLoop goLibs collector (CdnCloudExporter (pre ++ d :: post) pid rg dy c)
    (pre ++ d :: post)).sent[7 * pre.length + k]? = _
  rw [collectLoop_append, collectLoop_go collector _ he pre h1, Run.andThen_ok, collectLoop_cons,
    collectDomain_go collector _ he d h2, Run.andThen_ok]
  simp only
  rw [List.getElem?_append_right (by rw [flatMap_specObservations_length]; omega),
    flatMap_specObservations_length, Nat.add_sub_cancel_left,
    List.getElem?_append_left (by rw [specObservations_length]; exact hk)]

end Claims

/-! ## Integer means without overflow -/

section IntMean

theorem wrap64_of_range (z : Int) (h1 : -9223372036854775808 ≤ z) (h2 : z < 9223372036854775808) :
    wrap64 z = z := by
  unfold wrap64
  omega

theorem tdiv_range (a : Int) (n : Nat) (h1 : -9223372036854775808 ≤ a)
    (h2 : a < 9223372036854775808) :
    -9223372036854775808 ≤ Int.tdiv a (n : Int) ∧ Int.tdiv a (n : Int) < 9223372036854775808 := by
  cases a with
  | ofNat m =>
    have e : Int.tdiv (Int.ofNat m) (n : Int) = ((m / n : Nat) : Int) := rfl
    have hle := Nat.div_le_self m n
    rw [e]
    simp only [Int.ofNat_eq_coe] at h2
    generalize m / n = q at hle
    omega
  | negSucc m =>
    have e : Int.tdiv (Int.negSucc m) (n : Int) = -(((m + 1) / n : Nat) : Int) := rfl
    have hle := Nat.div_le_self (m + 1) n
    rw [e]
    have h3 : Int.negSucc m = -((m : Int) + 1) := rfl
    rw [h3] at h1
    generalize (m + 1) / n = q at hle
    omega

theorem foldl_intAdd_eq (xs : List Int) (a : Int)
    (h : ∀ k, k ≤ xs.length → -9223372036854775808 ≤ a + (xs.take k).sum ∧
      a + (xs.take k).sum < 9223372036854775808) :
    xs.foldl intAdd a = a + xs.sum := by
  induction xs generalizing a with
  | nil => simp
  | cons x t ih =>
    have h1 := h 1 (by simp)
    simp only [List.take_succ_cons, List.take_zero, List.sum_cons, List.sum_nil, add_zero] at h1
    rw [List.foldl_cons, intAdd, wrap64_of_range _ h1.1 h1.2, ih, List.sum_cons, add_assoc]
    intro k hk
    have := h (k + 1) (by simp; omega)
    simp only [List.take_succ_cons, List.sum_cons] at this
    rw [add_assoc]
    exact this

/-- Without overflow of the running sum the integer mean is the exact sum divided by the
count, truncated toward zero. -/
theorem specIntMean_exact (xs : List Int)
    (h : ∀ k, k ≤ xs.length → -9223372036854775808 ≤ (xs.take k).sum ∧
      (xs.take k).sum < 9223372036854775808) :
    specIntMean xs = Int.tdiv xs.sum (xs.length : Int) := by
  have hs : intSum xs = xs.sum := by
    have := foldl_intAdd_eq xs 0 (by simpa using h)
    simpa [intSum] using this
  have hr := h xs.length (le_refl _)
  rw [List.take_length] at hr
  obtain ⟨r1, r2⟩ := tdiv_range xs.sum xs.length hr.1 hr.2
  rw [specIntMean, hs, wrap64_of_range _ r1 r2]

end IntMean

/-! ## The claims -/

section Contract

variable {Client : Type}

/-- The seven descriptors built by `CdnCloudExporter`, whatever its arguments. -/
theorem cdnCloudExporter_descs (dl : List DomainBaseInfo) (pid : String) (rg dy : Int)
    (c : Client) :
    (CdnCloudExporter dl pid rg dy c).cdnRequestHitRate =
      ⟨"uCloud_cdn_request_hit_rate", "总请求命中率(%)", ["instanceId"]⟩ ∧
    (CdnCloudExporter dl pid rg dy c).cdnFlowHitRate =
      ⟨"uCloud_cdn_flow_hit_rate", "总流量命中率(%)", ["instanceId"]⟩ ∧
    (CdnCloudExporter dl pid rg dy c).cdnBandWidth =
      ⟨"uCloud_cdn_band_width", "域名带宽(Mbps)", ["instanceId"]⟩ ∧
    (CdnCloudExporter dl pid rg dy c).cdnOriginHttpCode4xx =
      ⟨"uCloud_cdn_http_code_4XX", "http4XX请求数(Count)", ["instanceId"]⟩ ∧
    (CdnCloudExporter dl pid rg dy c).cdn95bandwidth =
      ⟨"uCloud_cdn_95_band_width", "95带宽数据(Mbps)", ["instanceId"]⟩ ∧
    (CdnCloudExporter dl pid rg dy c).cdnOriginHttpCode5xx =
      ⟨"uCloud_cdn_http_code_5XX", "http5XX请求数(Count)", ["instanceId"]⟩ ∧
    (CdnCloudExporter dl pid rg dy c).cdnResourceRequest =
      ⟨"uCloud_cdn_resource_request", "cdn回源请求数", ["instanceId"]⟩ :=
  ⟨rfl, rfl, rfl, rfl, rfl, rfl, rfl⟩

theorem sentOf_desc_cases (collector : Collector Client) (e : CdnExporter Client)
    (d : DomainBaseInfo) (fa ra ba qa : F64) (k : Nat) (m : Metric)
    (h : (sentOf collector e d fa ra ba qa)[k]? = some m) :
    m.valType = .GaugeValue ∧ m.labelValues = [d.Domain] ∧
    ((k = 0 ∧ m.desc = e.cdnRequestHitRate ∧ m.value = ra) ∨
     (k = 1 ∧ m.desc = e.cdnBandWidth ∧ m.value = ba) ∨
     (k = 2 ∧ m.desc = e.cdnOriginHttpCode4xx ∧
        m.value = F64.ofInt (wrap64 (Int.tdiv (httpSums (httpDataOf collector e d)).http4xxSum
          ((httpDataOf collector e d).length : Int)))) ∨
     (k = 3 ∧ m.desc = e.cdnOriginHttpCode5xx ∧
        m.value = F64.ofInt (wrap64 (Int.tdiv (httpSums (httpDataOf collector e d)).http5xxSum
          ((httpDataOf collector e d).length : Int)))) ∨
     (k = 4 ∧ m.desc = e.cdn95bandwidth ∧ m.value = bandwidth95Of collector e d) ∨
     (k = 5 ∧ m.desc = e.cdnFlowHitRate ∧ m.value = fa) ∨
     (k = 6 ∧ m.desc = e.cdnResourceRequest ∧ m.value = qa)) := by
  have hk : k < 7 := by
    by_contra hcon
    rw [List.getElem?_eq_none (by rw [sentOf_length]; omega)] at h
    cases h
  interval_cases k <;> simp [sentOf] at h <;> subst h <;> simp

theorem specObservations_eq_sentOf (collector : Collector Client) (e : CdnExporter Client)
    (d : DomainBaseInfo) :
    sentOf collector e d (F64.round2 (flowHitRateQuot collector e d))
      (F64.round2 (requestHitRateQuot collector e d)) (F64.round2 (bandWidthQuot collector e d))
      (F64.round2 (resourceCdnRequestQuot collector e d)) = specObservations collector e d := by
  simp only [sentOf, specObservations, specMean2, specIntMean, flowHitRateQuot,
    requestHitRateQuot, bandWidthQuot, resourceCdnRequestQuot, hitRateSums_fst, hitRateSums_snd,
    bandWidthSumOf_eq, resourceCdnRequestSumOf_eq, httpSums_http4xxSum, httpSums_http5xxSum,
    float64Len, List.length_map]

/-- With the Go library, the metric at position `j` of the output is the observation number
`j % 7` that the specification prescribes for the resource at position `j / 7`. -/
theorem collect_go_sent_at (collector : Collector Client) (dl : List DomainBaseInfo)
    (pid : String) (rg dy : Int) (c : Client) (j : Nat) (m : Metric)
    (h : (Collect goLibs collector (CdnCloudExporter dl pid rg dy c)).sent[j]? = some m) :
    ∃ d, dl[j / 7]? = some d ∧
      (collector.RetrieveOriginHttpCode4xx d.DomainId pid rg dy c).HttpCodeDetail ≠ [] ∧
      (specObservations collector (CdnCloudExporter dl pid rg dy c) d)[j % 7]? = some m := by
  obtain ⟨d, fa, ra, ba, qa, g0, g1, g2, g3, g4, g5, g6⟩ :=
    collectLoop_slot goLibs collector _ (oneLabel_CdnCloudExporter dl pid rg dy c) dl j m h
  rw [go_round_trip] at g1 g2 g3 g5
  cases g1; cases g2; cases g3; cases g5
  rw [specObservations_eq_sentOf] at g6
  exact ⟨d, g0, g4, g6⟩

/-- The value of an observation of the specification, read off its descriptor. -/
theorem specObservations_by_desc (collector : Collector Client) (dl : List DomainBaseInfo)
    (pid : String) (rg dy : Int) (c : Client) (d : DomainBaseInfo) (k : Nat) (m : Metric)
    (h : (specObservations collector (CdnCloudExporter dl pid rg dy c) d)[k]? = some m) :
    m.valType = .GaugeValue ∧ m.labelValues = [d.Domain] ∧
    (m.desc = (CdnCloudExporter dl pid rg dy c).cdnRequestHitRate →
      m.value = specMean2 ((collector.RetrieveHitRate d.DomainId pid rg dy c).HitRateList.map
        (fun p => p.RequestHitRate))) ∧
    (m.desc = (CdnCloudExporter dl pid rg dy c).cdnFlowHitRate →
      m.value = specMean2 ((collector.RetrieveHitRate d.DomainId pid rg dy c).HitRateList.map
        (fun p => p.FlowHitRate))) ∧
    (m.desc = (CdnCloudExporter dl pid rg dy c).cdnBandWidth →
      m.value = specMean2 ((collector.RetrieveBandWidth d.DomainId pid rg dy c).BandwidthList.map
        (fun p => p.CdnBandwidth))) ∧
    (m.desc = (CdnCloudExporter dl pid rg dy c).cdnResourceRequest →
      m.value = specMean2 ((collector.RetrieveDomainOriginRequestNum d.DomainId pid rg dy
        c).RequestList.map (fun p => p.CdnRequest))) ∧
    (m.desc = (CdnCloudExporter dl pid rg dy c).cdnOriginHttpCode4xx →
      m.value = F64.ofInt (specIntMean ((collector.RetrieveOriginHttpCode4xx d.DomainId pid rg dy
        c).HttpCodeDetail.map (fun p => p.Http4XX.Total)))) ∧
    (m.desc = (CdnCloudExporter dl pid rg dy c).cdnOriginHttpCode5xx →
      m.value = F64.ofInt (specIntMean ((collector.RetrieveOriginHttpCode4xx d.DomainId pid rg dy
        c).HttpCodeDetail.map (fun p => p.Http5XX.Total)))) := by
  have hk : k < 7 := by
    by_contra hcon
    rw [List.getElem?_eq_none (by rw [specObservations_length]; omega)] at h
    cases h
  obtain ⟨n1, n2, n3, n4, n5, n6, n7⟩ := cdnCloudExporter_descs dl pid rg dy c
  interval_cases k <;> simp only [specObservations, List.getElem?_cons_zero,
    List.getElem?_cons_succ, Option.some.injEq] at h <;> subst h <;>
    refine ⟨rfl, rfl, ?_, ?_, ?_, ?_, ?_, ?_⟩ <;> intro hd <;>
    first
    | rfl
    | (simp only [n1, n2, n3, n4, n5, n6, n7] at hd; exact absurd hd (by decide))

/-- C1: with the Go library, every observation that `Collect` sends for one of the four
mean-reduced metrics, at any position `j` of its output, is labelled with the resource at
position `j / 7` of the list and carries the value `round(sum(field)/count, 2)` of its own
field over its own series of that resource: request hit rate from `RequestHitRate` and flow
hit rate from `FlowHitRate` over the hit-rate series, bandwidth from `CdnBandwidth` over the
bandwidth series, resource request from `CdnRequest` over the origin-request series. These
four observations of a resource `d` are sent, at the positions of its iteration, whenever
the scrape reaches the end of that iteration (the HTTP-code series of `d` and of the
resources listed before it are non-empty). -/
theorem collect_emits_rounded_means (collector : Collector Client) (dl : List DomainBaseInfo)
    (pid : String) (rg dy : Int) (c : Client) :
    (∀ (j : Nat) (m : Metric),
      (Collect goLibs collector (CdnCloudExporter dl pid rg dy c)).sent[j]? = some m →
      ∃ d, dl[j / 7]? = some d ∧ m.labelValues = [d.Domain] ∧
        (m.desc = (CdnCloudExporter dl pid rg dy c).cdnRequestHitRate →
          m.value = specMean2 ((collector.RetrieveHitRate d.DomainId pid rg dy
            c).HitRateList.map (fun p => p.RequestHitRate))) ∧
        (m.desc = (CdnCloudExporter dl pid rg dy c).cdnFlowHitRate →
          m.value = specMean2 ((collector.RetrieveHitRate d.DomainId pid rg dy
            c).HitRateList.map (fun p => p.FlowHitRate))) ∧
        (m.desc = (CdnCloudExporter dl pid rg dy c).cdnBandWidth →
          m.value = specMean2 ((collector.RetrieveBandWidth d.DomainId pid rg dy
            c).BandwidthList.map (fun p => p.CdnBandwidth))) ∧
        (m.desc = (CdnCloudExporter dl pid rg dy c).cdnResourceRequest →
          m.value = specMean2 ((collector.RetrieveDomainOriginRequestNum d.DomainId pid rg dy
            c).RequestList.map (fun p => p.CdnRequest)))) ∧
    (∀ (pre post : List DomainBaseInfo) (d : DomainBaseInfo), dl = pre ++ d :: post →
      (∀ x ∈ pre ++ [d],
        (collector.RetrieveOriginHttpCode4xx x.DomainId pid rg dy c).HttpCodeDetail ≠ []) →
      (Collect goLibs collector (CdnCloudExporter dl pid rg dy c)).sent[7 * pre.length]? =
        some ⟨(CdnCloudExporter dl pid rg dy c).cdnRequestHitRate, .GaugeValue,
          specMean2 ((collector.RetrieveHitRate d.DomainId pid rg dy c).HitRateList.map
            (fun p => p.RequestHitRate)), [d.Domain]⟩ ∧
      (Collect goLibs collector (CdnCloudExporter dl pid rg dy c)).sent[7 * pre.length + 1]? =
        some ⟨(CdnCloudExporter dl pid rg dy c).cdnBandWidth, .GaugeValue,
          specMean2 ((collector.RetrieveBandWidth d.DomainId pid rg dy c).BandwidthList.map
            (fun p => p.CdnBandwidth)), [d.Domain]⟩ ∧
      (Collect goLibs collector (CdnCloudExporter dl pid rg dy c)).sent[7 * pre.length + 5]? =
        some ⟨(CdnCloudExporter dl pid rg dy c).cdnFlowHitRate, .GaugeValue,
          specMean2 ((collector.RetrieveHitRate d.DomainId pid rg dy c).HitRateList.map
            (fun p => p.FlowHitRate)), [d.Domain]⟩ ∧
      (Collect goLibs collector (CdnCloudExporter dl pid rg dy c)).sent[7 * pre.length + 6]? =
        some ⟨(CdnCloudExporter dl pid rg dy c).cdnResourceRequest, .GaugeValue,
          specMean2 ((collector.RetrieveDomainOriginRequestNum d.DomainId pid rg dy
            c).RequestList.map (fun p => p.CdnRequest)), [d.Domain]⟩) := by
  constructor
  · intro j m h
    obtain ⟨d, g0, -, g2⟩ := collect_go_sent_at collector dl pid rg dy c j m h
    obtain ⟨-, t2, t3, t4, t5, t6, -, -⟩ :=
      specObservations_by_desc collector dl pid rg dy c d _ m g2
    exact ⟨d, g0, t2, t3, t4, t5, t6⟩
  · intro pre post d hdl hh
    subst hdl
    exact ⟨collect_go_at collector pre post d pid rg dy c hh 0 (by decide),
      collect_go_at collector pre post d pid rg dy c hh 1 (by decide),
      collect_go_at collector pre post d pid rg dy c hh 5 (by decide),
      collect_go_at collector pre post d pid rg dy c hh 6 (by decide)⟩

set_option maxRecDepth 100000 in
/-- The scenario of the specification: the mean of `10.0, 20.0, 15.5` is `15.17`, and the
hit-rate points `{request 90, flow 95}`, `{request 92, flow 97}` give `91.0` and `96.0`,
labelled `example.com`. -/
theorem collect_emits_rounded_means_witness :
    (∀ x ∈ [] ++ [exampleDomain],
      (exampleCollector.RetrieveOriginHttpCode4xx x.DomainId "p" 3600 300 ()).HttpCodeDetail
        ≠ []) ∧
    (Collect goLibs exampleCollector
        (CdnCloudExporter [exampleDomain, secondDomain] "p" 3600 300 ())).sent[
          7 * ([] : List DomainBaseInfo).length]? =
      some ⟨NewDesc "uCloud_cdn_request_hit_rate" "总请求命中率(%)" ["instanceId"], .GaugeValue,
        F64.lit 91 1, ["example.com"]⟩ ∧
    (Collect goLibs exampleCollector
        (CdnCloudExporter [exampleDomain, secondDomain] "p" 3600 300 ())).sent[
          7 * ([] : List DomainBaseInfo).length + 1]? =
      some ⟨NewDesc "uCloud_cdn_band_width" "域名带宽(Mbps)" ["instanceId"], .GaugeValue,
        F64.lit 1517 100, ["example.com"]⟩ ∧
    (Collect goLibs exampleCollector
        (CdnCloudExporter [exampleDomain, secondDomain] "p" 3600 300 ())).sent[
          7 * ([] : List DomainBaseInfo).length + 5]? =
      some ⟨NewDesc "uCloud_cdn_flow_hit_rate" "总流量命中率(%)" ["instanceId"], .GaugeValue,
        F64.lit 96 1, ["example.com"]⟩ ∧
    (Collect goLibs exampleCollector
        (CdnCloudExporter [exampleDomain, secondDomain] "p" 3600 300 ())).sent[
          7 * ([] : List DomainBaseInfo).length + 6]? =
      some ⟨NewDesc "uCloud_cdn_resource_request" "cdn回源请求数" ["instanceId"], .GaugeValue,
        F64.lit 7 1, ["example.com"]⟩ := by
  have h := (collect_emits_rounded_means exampleCollector [exampleDomain, secondDomain]
    "p" 3600 300 ()).2 [] [secondDomain] exampleDomain rfl (by decide)
  have e1 : specMean2 ((exampleCollector.RetrieveHitRate exampleDomain.DomainId "p" 3600 300
      ()).HitRateList.map (fun p => p.RequestHitRate)) = F64.lit 91 1 := by decide
  have e2 : specMean2 ((exampleCollector.RetrieveBandWidth exampleDomain.DomainId "p" 3600 300
      ()).BandwidthList.map (fun p => p.CdnBandwidth)) = F64.lit 1517 100 := by decide
  have e3 : specMean2 ((exampleCollector.RetrieveHitRate exampleDomain.DomainId "p" 3600 300
      ()).HitRateList.map (fun p => p.FlowHitRate)) = F64.lit 96 1 := by decide
  have e4 : specMean2 ((exampleCollector.RetrieveDomainOriginRequestNum exampleDomain.DomainId
      "p" 3600 300 ()).RequestList.map (fun p => p.CdnRequest)) = F64.lit 7 1 := by decide
  rw [e1, e2, e3, e4] at h
  exact ⟨by decide, h⟩

/-- C2: with the Go library, every 4xx observation that `Collect` sends, at any position `j`
of its output, belongs to the resource at position `j / 7`, whose HTTP-code series is
non-empty, and carries `float64` of the integer mean of the points' `Http4XX.Total`: the
`int` sum divided by the point count with truncating division, with no decimal rounding
step; every 5xx observation carries the same over `Http5XX.Total`. Both are sent, at the
positions of the resource's iteration, whenever the HTTP-code series of the resource and of
the resources listed before it are non-empty. Whenever the running sum does not overflow the
64-bit `int`, the integer mean is the exact sum divided by the count, truncated toward
zero. -/
theorem collect_emits_truncated_integer_means (collector : Collector Client)
    (dl : List DomainBaseInfo) (pid : String) (rg dy : Int) (c : Client) :
    (∀ (j : Nat) (m : Metric),
      (Collect goLibs collector (CdnCloudExporter dl pid rg dy c)).sent[j]? = some m →
      ∃ d, dl[j / 7]? = some d ∧ m.labelValues = [d.Domain] ∧
        (collector.RetrieveOriginHttpCode4xx d.DomainId pid rg dy c).HttpCodeDetail ≠ [] ∧
        (m.desc = (CdnCloudExporter dl pid rg dy c).cdnOriginHttpCode4xx →
          m.value = F64.ofInt (specIntMean ((collector.RetrieveOriginHttpCode4xx d.DomainId pid
            rg dy c).HttpCodeDetail.map (fun p => p.Http4XX.Total)))) ∧
        (m.desc = (CdnCloudExporter dl pid rg dy c).cdnOriginHttpCode5xx →
          m.value = F64.ofInt (specIntMean ((collector.RetrieveOriginHttpCode4xx d.DomainId pid
            rg dy c).HttpCodeDetail.map (fun p => p.Http5XX.Total))))) ∧
    (∀ (pre post : List DomainBaseInfo) (d : DomainBaseInfo), dl = pre ++ d :: post →
      (∀ x ∈ pre ++ [d],
        (collector.RetrieveOriginHttpCode4xx x.DomainId pid rg dy c).HttpCodeDetail ≠ []) →
      (Collect goLibs collector (CdnCloudExporter dl pid rg dy c)).sent[7 * pre.length + 2]? =
        some ⟨(CdnCloudExporter dl pid rg dy c).cdnOriginHttpCode4xx, .GaugeValue,
          F64.ofInt (specIntMean ((collector.RetrieveOriginHttpCode4xx d.DomainId pid rg dy
            c).HttpCodeDetail.map (fun p => p.Http4XX.Total))), [d.Domain]⟩ ∧
      (Collect goLibs collector (CdnCloudExporter dl pid rg dy c)).sent[7 * pre.length + 3]? =
        some ⟨(CdnCloudExporter dl pid rg dy c).cdnOriginHttpCode5xx, .GaugeValue,
          F64.ofInt (specIntMean ((collector.RetrieveOriginHttpCode4xx d.DomainId pid rg dy
            c).HttpCodeDetail.map (fun p => p.Http5XX.Total))), [d.Domain]⟩) ∧
    (∀ xs : List Int,
      (∀ k, k ≤ xs.length → -9223372036854775808 ≤ (xs.take k).sum ∧
        (xs.take k).sum < 9223372036854775808) →
      specIntMean xs = Int.tdiv xs.sum (xs.length : Int)) := by
  refine ⟨?_, ?_, specIntMean_exact⟩
  · intro j m h
    obtain ⟨d, g0, g1, g2⟩ := collect_go_sent_at collector dl pid rg dy c j m h
    obtain ⟨-, t2, -, -, -, -, t7, t8⟩ :=
      specObservations_by_desc collector dl pid rg dy c d _ m g2
    exact ⟨d, g0, t2, g1, t7, t8⟩
  · intro pre post d hdl hh
    subst hdl
    exact ⟨collect_go_at collector pre post d pid rg dy c hh 2 (by decide),
      collect_go_at collector pre post d pid rg dy c hh 3 (by decide)⟩

set_option maxRecDepth 100000 in
/-- Totals `3, 4, 4` over three points give `11 / 3 = 3`, sent as `3.0`, not `4`. -/
theorem collect_emits_truncated_integer_means_witness :
    (∀ x ∈ [secondDomain] ++ [exampleDomain],
      (exampleCollector.RetrieveOriginHttpCode4xx x.DomainId "p" 3600 300 ()).HttpCodeDetail
        ≠ []) ∧
    (Collect goLibs exampleCollector
        (CdnCloudExporter [secondDomain, exampleDomain] "p" 3600 300 ())).sent[
          7 * [secondDomain].length + 2]? =
      some ⟨NewDesc "uCloud_cdn_http_code_4XX" "http4XX请求数(Count)" ["instanceId"], .GaugeValue,
        F64.lit 3 1, ["example.com"]⟩ ∧
    specIntMean [3, 4, 4] = Int.tdiv ([3, 4, 4] : List Int).sum 3 ∧
    Int.tdiv ([3, 4, 4] : List Int).sum 3 = 3 ∧ F64.lit 3 1 ≠ F64.lit 4 1 := by
  have h := (collect_emits_truncated_integer_means exampleCollector
    [secondDomain, exampleDomain] "p" 3600 300 ()).2.1 [secondDomain] [] exampleDomain rfl
    (by decide)
  have e1 : F64.ofInt (specIntMean ((exampleCollector.RetrieveOriginHttpCode4xx
      exampleDomain.DomainId "p" 3600 300 ()).HttpCodeDetail.map (fun p => p.Http4XX.Total))) =
      F64.lit 3 1 := by decide
  rw [e1] at h
  exact ⟨by decide, h.1,
    (collect_emits_truncated_integer_means exampleCollector [secondDomain, exampleDomain] "p"
      3600 300 ()).2.2 [3, 4, 4] (by decide), by decide, by decide⟩

/-- C3: every observation of the 95th-percentile bandwidth metric that `Collect` sends, at
any position `j` of its output, carries exactly the `CdnBandwidth` scalar returned by
`Retrieve95BandWidth` for the resource at position `j / 7` of the list, with that resource's
name as label; no arithmetic is applied to it. -/
theorem collect_passes_bandwidth95_through (rt : Libs) (collector : Collector Client)
    (dl : List DomainBaseInfo) (pid : String) (rg dy : Int) (c : Client) (j : Nat) (m : Metric)
    (hm : (Collect rt collector (CdnCloudExporter dl pid rg dy c)).sent[j]? = some m)
    (hd : m.desc = (CdnCloudExporter dl pid rg dy c).cdn95bandwidth) :
    ∃ d, dl[j / 7]? = some d ∧
      m.value = (collector.Retrieve95BandWidth d.DomainId pid rg dy c).CdnBandwidth ∧
      m.labelValues = [d.Domain] ∧ m.valType = .GaugeValue := by
  obtain ⟨d, fa, ra, ba, qa, g0, -, -, -, -, -, g6⟩ :=
    collectLoop_slot rt collector _ (oneLabel_CdnCloudExporter dl pid rg dy c) dl j m hm
  obtain ⟨t1, t2, t3⟩ := sentOf_desc_cases collector _ d fa ra ba qa _ m g6
  refine ⟨d, g0, ?_, t2, t1⟩
  obtain ⟨n1, n2, n3, n4, n5, n6, n7⟩ := cdnCloudExporter_descs dl pid rg dy c
  rw [n5] at hd
  rcases t3 with ⟨-, a, b⟩ | ⟨-, a, b⟩ | ⟨-, a, b⟩ | ⟨-, a, b⟩ | ⟨-, a, b⟩ | ⟨-, a, b⟩ | ⟨-, a, b⟩
  · rw [a, n1] at hd; exact absurd hd (by decide)
  · rw [a, n3] at hd; exact absurd hd (by decide)
  · rw [a, n4] at hd; exact absurd hd (by decide)
  · rw [a, n6] at hd; exact absurd hd (by decide)
  · exact b
  · rw [a, n2] at hd; exact absurd hd (by decide)
  · rw [a, n7] at hd; exact absurd hd (by decide)

set_option maxRecDepth 100000 in
/-- The scalar `123.456` of the scenario is sent unchanged for the second resource. -/
theorem collect_passes_bandwidth95_through_witness :
    (Collect goLibs exampleCollector
        (CdnCloudExporter [exampleDomain, secondDomain] "p" 3600 300 ())).sent[11]? =
      some ⟨NewDesc "uCloud_cdn_95_band_width" "95带宽数据(Mbps)" ["instanceId"], .GaugeValue,
        F64.lit 123456 1000, ["static.example.com"]⟩ ∧
    ∃ d, [exampleDomain, secondDomain][11 / 7]? = some d ∧
      F64.lit 123456 1000 =
        (exampleCollector.Retrieve95BandWidth d.DomainId "p" 3600 300 ()).CdnBandwidth ∧
      ["static.example.com"] = [d.Domain] ∧ ValueType.GaugeValue = .GaugeValue :=
  ⟨by decide,
   collect_passes_bandwidth95_through goLibs exampleCollector [exampleDomain, secondDomain]
     "p" 3600 300 () 11
     ⟨NewDesc "uCloud_cdn_95_band_width" "95带宽数据(Mbps)" ["instanceId"], .GaugeValue,
       F64.lit 123456 1000, ["static.example.com"]⟩ (by decide) (by decide)⟩

theorem map_flatMap_specObservations (collector : Collector Client) (e : CdnExporter Client)
    (ds : List DomainBaseInfo) :
    (ds.flatMap (specObservations collector e)).map (fun m => (m.desc, m.valType, m.labelValues)) =
      ds.flatMap (fun d =>
        [e.cdnRequestHitRate, e.cdnBandWidth, e.cdnOriginHttpCode4xx, e.cdnOriginHttpCode5xx,
         e.cdn95bandwidth, e.cdnFlowHitRate, e.cdnResourceRequest].map
          (fun desc => (desc, ValueType.GaugeValue, [d.Domain]))) := by
  induction ds with
  | nil => rfl
  | cons d t ih =>
    simp only [List.flatMap_cons, List.map_append, ih]
    rfl

/-- C4: with the Go library, for every resource list whose fetched series are all non-empty,
one `Collect` call completes and sends exactly `|resources| × 7` observations: for each
resource, in list order, one observation for each of the seven descriptors of `Describe`
(sent in the order request hit rate, bandwidth, 4xx, 5xx, 95th percentile, flow hit rate,
resource request), each of kind gauge and each carrying exactly one label value, the
resource's `Domain`, matching the single label name of its descriptor. -/
theorem collect_emits_seven_gauges_per_resource (collector : Collector Client)
    (dl : List DomainBaseInfo) (pid : String) (rg dy : Int) (c : Client)
    (hall : ∀ d ∈ dl,
      (collector.RetrieveHitRate d.DomainId pid rg dy c).HitRateList ≠ [] ∧
      (collector.RetrieveBandWidth d.DomainId pid rg dy c).BandwidthList ≠ [] ∧
      (collector.RetrieveOriginHttpCode4xx d.DomainId pid rg dy c).HttpCodeDetail ≠ [] ∧
      (collector.RetrieveDomainOriginRequestNum d.DomainId pid rg dy c).RequestList ≠ []) :
    (Collect goLibs collector (CdnCloudExporter dl pid rg dy c)).completed ∧
    (Collect goLibs collector (CdnCloudExporter dl pid rg dy c)).sent.length = dl.length * 7 ∧
    (Collect goLibs collector (CdnCloudExporter dl pid rg dy c)).sent.map
        (fun m => (m.desc, m.valType, m.labelValues)) =
      dl.flatMap (fun d =>
        [(CdnCloudExporter dl pid rg dy c).cdnRequestHitRate,
         (CdnCloudExporter dl pid rg dy c).cdnBandWidth,
         (CdnCloudExporter dl pid rg dy c).cdnOriginHttpCode4xx,
         (CdnCloudExporter dl pid rg dy c).cdnOriginHttpCode5xx,
         (CdnCloudExporter dl pid rg dy c).cdn95bandwidth,
         (CdnCloudExporter dl pid rg dy c).cdnFlowHitRate,
         (CdnCloudExporter dl pid rg dy c).cdnResourceRequest].map
          (fun desc => (desc, ValueType.GaugeValue, [d.Domain]))) ∧
    List.Perm
      [(CdnCloudExporter dl pid rg dy c).cdnRequestHitRate,
       (CdnCloudExporter dl pid rg dy c).cdnBandWidth,
       (CdnCloudExporter dl pid rg dy c).cdnOriginHttpCode4xx,
       (CdnCloudExporter dl pid rg dy c).cdnOriginHttpCode5xx,
       (CdnCloudExporter dl pid rg dy c).cdn95bandwidth,
       (CdnCloudExporter dl pid rg dy c).cdnFlowHitRate,
       (CdnCloudExporter dl pid rg dy c).cdnResourceRequest]
      (Describe (CdnCloudExporter dl pid rg dy c)) ∧
    (Describe (CdnCloudExporter dl pid rg dy c)).Nodup ∧
    (∀ m ∈ (Collect goLibs collector (CdnCloudExporter dl pid rg dy c)).sent,
      m.labelValues.length = 1 ∧ m.desc.variableLabels.length = 1) := by
  have he := oneLabel_CdnCloudExporter dl pid rg dy c
  have hloop := collectLoop_go collector (CdnCloudExporter dl pid rg dy c) he dl
    (fun d hd => (hall d hd).2.2.1)
  have hC : Collect goLibs collector (CdnCloudExporter dl pid rg dy c) =
      ⟨dl.flatMap (expectedCalls (CdnCloudExporter dl pid rg dy c)),
       dl.flatMap (specObservations collector (CdnCloudExporter dl pid rg dy c)), .ok ()⟩ := hloop
  obtain ⟨n1, n2, n3, n4, n5, n6, n7⟩ := cdnCloudExporter_descs dl pid rg dy c
  refine ⟨?_, ?_, ?_, ?_, ?_, ?_⟩
  · rw [hC]; rfl
  · rw [hC]; simp only; rw [flatMap_specObservations_length, Nat.mul_comm]
  · rw [hC]; exact map_flatMap_specObservations collector _ dl
  · simp only [Describe, n1, n2, n3, n4, n5, n6, n7]; decide
  · simp only [Describe, n1, n2, n3, n4, n5, n6, n7]; decide
  · intro m hm
    obtain ⟨j, hj⟩ := List.mem_iff_getElem?.mp hm
    obtain ⟨d, fa, ra, ba, qa, -, -, -, -, -, -, g6⟩ :=
      collectLoop_slot goLibs collector _ he dl j m hj
    obtain ⟨-, t2, t3⟩ := sentOf_desc_cases collector _ d fa ra ba qa _ m g6
    obtain ⟨l1, l2, l3, l4, l5, l6, l7⟩ := he
    refine ⟨by rw [t2]; rfl, ?_⟩
    rcases t3 with ⟨-, a, -⟩ | ⟨-, a, -⟩ | ⟨-, a, -⟩ | ⟨-, a, -⟩ | ⟨-, a, -⟩ | ⟨-, a, -⟩ |
      ⟨-, a, -⟩ <;> rw [a] <;> assumption

set_option maxRecDepth 100000 in
/-- Two resources with non-empty series give fourteen observations. -/
theorem collect_emits_seven_gauges_per_resource_witness :
    (∀ d ∈ [exampleDomain, secondDomain],
      (exampleCollector.RetrieveHitRate d.DomainId "p" 3600 300 ()).HitRateList ≠ [] ∧
      (exampleCollector.RetrieveBandWidth d.DomainId "p" 3600 300 ()).BandwidthList ≠ [] ∧
      (exampleCollector.RetrieveOriginHttpCode4xx d.DomainId "p" 3600 300 ()).HttpCodeDetail
        ≠ [] ∧
      (exampleCollector.RetrieveDomainOriginRequestNum d.DomainId "p" 3600 300 ()).RequestList
        ≠ []) ∧
    (Collect goLibs exampleCollector
      (CdnCloudExporter [exampleDomain, secondDomain] "p" 3600 300 ())).completed ∧
    (Collect goLibs exampleCollector
      (CdnCloudExporter [exampleDomain, secondDomain] "p" 3600 300 ())).sent.length =
        [exampleDomain, secondDomain].length * 7 :=
  ⟨by decide,
   (collect_emits_seven_gauges_per_resource exampleCollector [exampleDomain, secondDomain]
     "p" 3600 300 () (by decide)).1,
   (collect_emits_seven_gauges_per_resource exampleCollector [exampleDomain, secondDomain]
     "p" 3600 300 () (by decide)).2.1⟩

set_option maxRecDepth 100000 in
/-- C5 (the code at the failing input): when the HTTP-code series of the first resource has
no point, the scrape of two resources stops with the run-time panic of the integer division
and nothing is sent, neither for that resource nor for the next one, although the same call
with non-empty series completes with fourteen observations; an empty bandwidth series, by
contrast, does not stop the scrape and yields a NaN observation. -/
theorem collect_panics_on_empty_http_series :
    (Collect goLibs emptyHttpCollector
      (CdnCloudExporter [exampleDomain, secondDomain] "p" 3600 300 ())).res =
        .error (.panicked "integer divide by zero") ∧
    (Collect goLibs emptyHttpCollector
      (CdnCloudExporter [exampleDomain, secondDomain] "p" 3600 300 ())).sent = [] ∧
    (Collect goLibs exampleCollector
      (CdnCloudExporter [exampleDomain, secondDomain] "p" 3600 300 ())).res = .ok () ∧
    (Collect goLibs exampleCollector
      (CdnCloudExporter [exampleDomain, secondDomain] "p" 3600 300 ())).sent.length = 14 ∧
    (Collect goLibs emptyBandwidthCollector
      (CdnCloudExporter [exampleDomain, secondDomain] "p" 3600 300 ())).res = .ok () ∧
    ((Collect goLibs emptyBandwidthCollector
      (CdnCloudExporter [exampleDomain, secondDomain] "p" 3600 300 ())).sent.map
        (fun m => m.value))[1]? = some F64.nan := by
  decide

/-- C6: for every exporter built by `CdnCloudExporter`, `Describe` yields the same seven
descriptors whatever the arguments of the constructor: request_hit_rate, flow_hit_rate,
band_width, http_code_4XX, 95_band_width, http_code_5XX and resource_request under the
prefix `uCloud_cdn_`, pairwise distinct (also by name), each declaring the single label name
`instanceId`; and every observation sent by `Collect`, for any library behaviour and any data
source, refers to one of them. -/
theorem describe_yields_fixed_descriptors (dl : List DomainBaseInfo) (pid : String)
    (rg dy : Int) (c : Client) :
    Describe (CdnCloudExporter dl pid rg dy c) =
      [⟨"uCloud_cdn_request_hit_rate", "总请求命中率(%)", ["instanceId"]⟩,
       ⟨"uCloud_cdn_flow_hit_rate", "总流量命中率(%)", ["instanceId"]⟩,
       ⟨"uCloud_cdn_band_width", "域名带宽(Mbps)", ["instanceId"]⟩,
       ⟨"uCloud_cdn_http_code_4XX", "http4XX请求数(Count)", ["instanceId"]⟩,
       ⟨"uCloud_cdn_95_band_width", "95带宽数据(Mbps)", ["instanceId"]⟩,
       ⟨"uCloud_cdn_http_code_5XX", "http5XX请求数(Count)", ["instanceId"]⟩,
       ⟨"uCloud_cdn_resource_request", "cdn回源请求数", ["instanceId"]⟩] ∧
    (Describe (CdnCloudExporter dl pid rg dy c)).length = 7 ∧
    ((Describe (CdnCloudExporter dl pid rg dy c)).map (fun x => x.fqName)).Nodup ∧
    (∀ x ∈ Describe (CdnCloudExporter dl pid rg dy c), x.variableLabels = ["instanceId"]) ∧
    (∀ (rt : Libs) (collector : Collector Client) (m : Metric),
      m ∈ (Collect rt collector (CdnCloudExporter dl pid rg dy c)).sent →
        m.desc ∈ Describe (CdnCloudExporter dl pid rg dy c)) := by
  obtain ⟨n1, n2, n3, n4, n5, n6, n7⟩ := cdnCloudExporter_descs dl pid rg dy c
  have hD : Describe (CdnCloudExporter dl pid rg dy c) =
      [⟨"uCloud_cdn_request_hit_rate", "总请求命中率(%)", ["instanceId"]⟩,
       ⟨"uCloud_cdn_flow_hit_rate", "总流量命中率(%)", ["instanceId"]⟩,
       ⟨"uCloud_cdn_band_width", "域名带宽(Mbps)", ["instanceId"]⟩,
       ⟨"uCloud_cdn_http_code_4XX", "http4XX请求数(Count)", ["instanceId"]⟩,
       ⟨"uCloud_cdn_95_band_width", "95带宽数据(Mbps)", ["instanceId"]⟩,
       ⟨"uCloud_cdn_http_code_5XX", "http5XX请求数(Count)", ["instanceId"]⟩,
       ⟨"uCloud_cdn_resource_request", "cdn回源请求数", ["instanceId"]⟩] := by
    simp only [Describe, n1, n2, n3, n4, n5, n6, n7]
  refine ⟨hD, rfl, ?_, ?_, ?_⟩
  · rw [hD]; decide
  · rw [hD]; decide
  · intro rt collector m hm
    obtain ⟨j, hj⟩ := List.mem_iff_getElem?.mp hm
    obtain ⟨d, fa, ra, ba, qa, -, -, -, -, -, -, g6⟩ :=
      collectLoop_slot rt collector _ (oneLabel_CdnCloudExporter dl pid rg dy c) dl j m hj
    obtain ⟨-, -, t3⟩ := sentOf_desc_cases collector _ d fa ra ba qa _ m g6
    rcases t3 with ⟨-, a, -⟩ | ⟨-, a, -⟩ | ⟨-, a, -⟩ | ⟨-, a, -⟩ | ⟨-, a, -⟩ | ⟨-, a, -⟩ |
      ⟨-, a, -⟩ <;> rw [a] <;> simp [Describe]

end Contract

section Behaviour

variable {Client : Type}

theorem sameFeed_of_respond (c1 c2 : Collector Client) (e : CdnExporter Client)
    (d : DomainBaseInfo) (op : Op)
    (h : respond c2 e.client (callOf e d op) = respond c1 e.client (callOf e d op)) :
    sameFeed op c1 c2 e d := by
  cases op <;> simp only [respond, callOf] at h <;> injection h with h <;>
    simp only [sameFeed, hitRateDataOf, bandWidthDataOf, httpDataOf, resourceCdnRequestDataOf,
      bandwidth95Of, h]

/-- C7: `Collect` is deterministic in the data source. For every exporter built by
`CdnCloudExporter`, every library behaviour and any two data sources, if the second returns
the same response as the first to every call the first scrape makes, then the two scrapes
are identical: the same calls, the same sequence of observations (descriptor, kind, value,
label) and the same ending. -/
theorem collect_is_deterministic (rt : Libs) (c1 c2 : Collector Client)
    (dl : List DomainBaseInfo) (pid : String) (rg dy : Int) (c : Client)
    (h : ∀ call ∈ (Collect rt c1 (CdnCloudExporter dl pid rg dy c)).calls,
      respond c2 c call = respond c1 c call) :
    Collect rt c2 (CdnCloudExporter dl pid rg dy c) =
      Collect rt c1 (CdnCloudExporter dl pid rg dy c) := by
  apply collectLoop_congr rt c1 c2 _ (oneLabel_CdnCloudExporter dl pid rg dy c) dl
  intro d _ op hop
  exact sameFeed_of_respond c1 c2 _ d op (h _ hop)

set_option maxRecDepth 100000 in
/-- Two data sources that differ only for a domain that is not scraped give the same
scrape. -/
theorem collect_is_deterministic_witness :
    (∀ call ∈ (Collect goLibs exampleCollector
        (CdnCloudExporter [exampleDomain, secondDomain] "p" 3600 300 ())).calls,
      respond elsewhereCollector () call = respond exampleCollector () call) ∧
    respond elsewhereCollector () ⟨.HitRate, "d9", "p", 3600, 300⟩ ≠
      respond exampleCollector () ⟨.HitRate, "d9", "p", 3600, 300⟩ ∧
    Collect goLibs elsewhereCollector
        (CdnCloudExporter [exampleDomain, secondDomain] "p" 3600 300 ()) =
      Collect goLibs exampleCollector
        (CdnCloudExporter [exampleDomain, secondDomain] "p" 3600 300 ()) :=
  ⟨by decide, by decide,
   collect_is_deterministic goLibs exampleCollector elsewhereCollector
     [exampleDomain, secondDomain] "p" 3600 300 () (by decide)⟩

theorem metric_ext (m1 m2 : Metric) (h1 : m1.desc = m2.desc) (h2 : m1.valType = m2.valType)
    (h3 : m1.value = m2.value) (h4 : m1.labelValues = m2.labelValues) : m1 = m2 := by
  cases m1; cases m2; simp only at h1 h2 h3 h4; subst h1 h2 h3 h4; rfl

/-- C8: the observation at a position of the output depends only on what `Collect` reads
from its own fetch. For any two data sources and any position `j` at which both scrapes send
an observation, if the two sources agree on the response that feeds position `j` for the
resource at position `j / 7` (`sameFeed`: the points of the series that the metric is reduced
from, which for the HTTP status codes are the 4XX and 5XX totals only, or the 95th-percentile
scalar), then the two observations are equal, whatever the other series of that resource, the
series of the other resources, and the 1XX, 2XX and 3XX totals are. -/
theorem collect_value_depends_on_own_fetch (rt : Libs) (c1 c2 : Collector Client)
    (dl : List DomainBaseInfo) (pid : String) (rg dy : Int) (c : Client) (j : Nat)
    (m1 m2 : Metric) (d : DomainBaseInfo)
    (h1 : (Collect rt c1 (CdnCloudExporter dl pid rg dy c)).sent[j]? = some m1)
    (h2 : (Collect rt c2 (CdnCloudExporter dl pid rg dy c)).sent[j]? = some m2)
    (hd : dl[j / 7]? = some d)
    (hf : sameFeed (slotOp (j % 7)) c1 c2 (CdnCloudExporter dl pid rg dy c) d) :
    m2 = m1 := by
  have he := oneLabel_CdnCloudExporter dl pid rg dy c
  obtain ⟨d1, fa, ra, ba, qa, a0, a1, a2, a3, -, a5, a6⟩ :=
    collectLoop_slot rt c1 _ he dl j m1 h1
  obtain ⟨d2, fb, rb, bb, qb, b0, b1, b2, b3, -, b5, b6⟩ :=
    collectLoop_slot rt c2 _ he dl j m2 h2
  rw [hd] at a0 b0
  cases a0; cases b0
  obtain ⟨s1, s2, s3⟩ := sentOf_desc_cases c1 _ d fa ra ba qa _ m1 a6
  obtain ⟨t1, t2, t3⟩ := sentOf_desc_cases c2 _ d fb rb bb qb _ m2 b6
  rcases s3 with ⟨k, x, y⟩ | ⟨k, x, y⟩ | ⟨k, x, y⟩ | ⟨k, x, y⟩ | ⟨k, x, y⟩ | ⟨k, x, y⟩ |
      ⟨k, x, y⟩ <;>
    rcases t3 with ⟨k2, x2, y2⟩ | ⟨k2, x2, y2⟩ | ⟨k2, x2, y2⟩ | ⟨k2, x2, y2⟩ | ⟨k2, x2, y2⟩ |
      ⟨k2, x2, y2⟩ | ⟨k2, x2, y2⟩ <;>
    first
    | (exfalso; omega)
    | skip
  all_goals rw [k] at hf
  all_goals simp only [slotOp] at hf
  all_goals apply metric_ext _ _ (by rw [x, x2]) (by rw [s1, t1]) _ (by rw [s2, t2])
  all_goals rw [y, y2]
  · have q := (quot_of_sameFeed_hitRate c1 c2 _ d hf).2
    rw [q, a2] at b2; cases b2; rfl
  · have q := quot_of_sameFeed_bandWidth c1 c2 _ d hf
    rw [q, a3] at b3; cases b3; rfl
  · obtain ⟨q1, q2, -⟩ := http_of_sameFeed c1 c2 _ d hf
    rw [q1, q2]
  · obtain ⟨q1, -, q3⟩ := http_of_sameFeed c1 c2 _ d hf
    rw [q1, q3]
  · simp only [sameFeed] at hf
    exact hf.symm
  · have q := (quot_of_sameFeed_hitRate c1 c2 _ d hf).1
    rw [q, a1] at b1; cases b1; rfl
  · have q := quot_of_sameFeed_request c1 c2 _ d hf
    rw [q, a5] at b5; cases b5; rfl


set_option maxRecDepth 100000 in
/-- The data sources `exampleCollector` and `variedCollector` differ in the bandwidth series
and in the 1XX, 2XX and 3XX totals: the bandwidth observations differ, the 4xx observation of
the second resource is the same. -/
theorem collect_value_depends_on_own_fetch_witness :
    (Collect goLibs exampleCollector
        (CdnCloudExporter [exampleDomain, secondDomain] "p" 3600 300 ())).sent[9]? =
      some ⟨NewDesc "uCloud_cdn_http_code_4XX" "http4XX请求数(Count)" ["instanceId"], .GaugeValue,
        F64.lit 3 1, ["static.example.com"]⟩ ∧
    (Collect goLibs variedCollector
        (CdnCloudExporter [exampleDomain, secondDomain] "p" 3600 300 ())).sent[9]? =
      some ⟨NewDesc "uCloud_cdn_http_code_4XX" "http4XX请求数(Count)" ["instanceId"], .GaugeValue,
        F64.lit 3 1, ["static.example.com"]⟩ ∧
    [exampleDomain, secondDomain][9 / 7]? = some secondDomain ∧
    sameFeed (slotOp (9 % 7)) exampleCollector variedCollector
      (CdnCloudExporter [exampleDomain, secondDomain] "p" 3600 300 ()) secondDomain ∧
    (Collect goLibs exampleCollector
        (CdnCloudExporter [exampleDomain, secondDomain] "p" 3600 300 ())).sent[8]? ≠
      (Collect goLibs variedCollector
        (CdnCloudExporter [exampleDomain, secondDomain] "p" 3600 300 ())).sent[8]? ∧
    (⟨NewDesc "uCloud_cdn_http_code_4XX" "http4XX请求数(Count)" ["instanceId"], .GaugeValue,
        F64.lit 3 1, ["static.example.com"]⟩ : Metric) =
      ⟨NewDesc "uCloud_cdn_http_code_4XX" "http4XX请求数(Count)" ["instanceId"], .GaugeValue,
        F64.lit 3 1, ["static.example.com"]⟩ :=
  ⟨by decide, by decide, by decide, by decide, by decide,
   collect_value_depends_on_own_fetch goLibs exampleCollector variedCollector
     [exampleDomain, secondDomain] "p" 3600 300 () 9 _ _ secondDomain
     (by decide) (by decide) (by decide) (by decide)⟩

/-- The calls of a scrape: always an initial part of the five calls per resource in list
order, each with the arguments `(DomainId, projectId, rangeTime, delayTime)`; all of them
when the scrape completes; and the scrape is the same for two data sources whose responses
at these arguments are equal. -/
theorem collect_calls_structure (rt : Libs) (collector : Collector Client)
    (dl : List DomainBaseInfo) (pid : String) (rg dy : Int) (c : Client) :
    (∃ rest,
      dl.flatMap (fun d =>
        [(⟨.HitRate, d.DomainId, pid, rg, dy⟩ : Call), ⟨.BandWidth, d.DomainId, pid, rg, dy⟩,
         ⟨.OriginHttpCode4xx, d.DomainId, pid, rg, dy⟩,
         ⟨.DomainOriginRequestNum, d.DomainId, pid, rg, dy⟩,
         ⟨.BandWidth95, d.DomainId, pid, rg, dy⟩]) =
        (Collect rt collector (CdnCloudExporter dl pid rg dy c)).calls ++ rest) ∧
    ((Collect rt collector (CdnCloudExporter dl pid rg dy c)).completed →
      (Collect rt collector (CdnCloudExporter dl pid rg dy c)).calls =
        dl.flatMap (fun d =>
          [(⟨.HitRate, d.DomainId, pid, rg, dy⟩ : Call), ⟨.BandWidth, d.DomainId, pid, rg, dy⟩,
           ⟨.OriginHttpCode4xx, d.DomainId, pid, rg, dy⟩,
           ⟨.DomainOriginRequestNum, d.DomainId, pid, rg, dy⟩,
           ⟨.BandWidth95, d.DomainId, pid, rg, dy⟩])) ∧
    (∀ c2 : Collector Client,
      (∀ d ∈ dl,
        c2.RetrieveHitRate d.DomainId pid rg dy c =
          collector.RetrieveHitRate d.DomainId pid rg dy c ∧
        c2.RetrieveBandWidth d.DomainId pid rg dy c =
          collector.RetrieveBandWidth d.DomainId pid rg dy c ∧
        c2.RetrieveOriginHttpCode4xx d.DomainId pid rg dy c =
          collector.RetrieveOriginHttpCode4xx d.DomainId pid rg dy c ∧
        c2.RetrieveDomainOriginRequestNum d.DomainId pid rg dy c =
          collector.RetrieveDomainOriginRequestNum d.DomainId pid rg dy c ∧
        c2.Retrieve95BandWidth d.DomainId pid rg dy c =
          collector.Retrieve95BandWidth d.DomainId pid rg dy c) →
      Collect rt c2 (CdnCloudExporter dl pid rg dy c) =
        Collect rt collector (CdnCloudExporter dl pid rg dy c)) := by
  have he := oneLabel_CdnCloudExporter dl pid rg dy c
  refine ⟨collectLoop_calls_initial rt collector _ he dl,
    fun h => (collectLoop_completed rt collector _ he dl h).1, ?_⟩
  intro c2 h
  apply collectLoop_congr rt collector c2 _ he dl
  intro d hd op _
  obtain ⟨h1, h2, h3, h4, h5⟩ := h d hd
  have e1 : hitRateDataOf collector (CdnCloudExporter dl pid rg dy c) d =
      hitRateDataOf c2 (CdnCloudExporter dl pid rg dy c) d :=
    (congrArg HitRateResponse.HitRateList h1).symm
  have e2 : bandWidthDataOf collector (CdnCloudExporter dl pid rg dy c) d =
      bandWidthDataOf c2 (CdnCloudExporter dl pid rg dy c) d :=
    (congrArg BandwidthResponse.BandwidthList h2).symm
  have e3 : httpDataOf collector (CdnCloudExporter dl pid rg dy c) d =
      httpDataOf c2 (CdnCloudExporter dl pid rg dy c) d :=
    (congrArg HttpCodeResponse.HttpCodeDetail h3).symm
  have e4 : resourceCdnRequestDataOf collector (CdnCloudExporter dl pid rg dy c) d =
      resourceCdnRequestDataOf c2 (CdnCloudExporter dl pid rg dy c) d :=
    (congrArg RequestResponse.RequestList h4).symm
  have e5 : bandwidth95Of collector (CdnCloudExporter dl pid rg dy c) d =
      bandwidth95Of c2 (CdnCloudExporter dl pid rg dy c) d :=
    (congrArg Bandwidth95Response.CdnBandwidth h5).symm
  cases op
  · exact e1
  · exact e2
  · simp only [sameFeed, e3]
  · exact e4
  · exact e5

set_option maxRecDepth 100000 in
/-- C9 (the code at the failing input): when the HTTP-code series of the first of two
resources has no point, `Collect` makes three calls for the first resource (hit rate,
bandwidth, HTTP codes) and then stops; the origin-request and 95th-percentile calls of the
first resource and all five calls of the second resource are never made. With non-empty
series the same exporter makes the ten calls. -/
theorem collect_skips_calls_after_empty_http_series :
    (Collect goLibs emptyHttpCollector
      (CdnCloudExporter [exampleDomain, secondDomain] "p" 3600 300 ())).calls =
      [⟨.HitRate, "d1", "p", 3600, 300⟩, ⟨.BandWidth, "d1", "p", 3600, 300⟩,
       ⟨.OriginHttpCode4xx, "d1", "p", 3600, 300⟩] ∧
    (Collect goLibs exampleCollector
      (CdnCloudExporter [exampleDomain, secondDomain] "p" 3600 300 ())).calls =
      [⟨.HitRate, "d1", "p", 3600, 300⟩, ⟨.BandWidth, "d1", "p", 3600, 300⟩,
       ⟨.OriginHttpCode4xx, "d1", "p", 3600, 300⟩,
       ⟨.DomainOriginRequestNum, "d1", "p", 3600, 300⟩, ⟨.BandWidth95, "d1", "p", 3600, 300⟩,
       ⟨.HitRate, "d2", "p", 3600, 300⟩, ⟨.BandWidth, "d2", "p", 3600, 300⟩,
       ⟨.OriginHttpCode4xx, "d2", "p", 3600, 300⟩,
       ⟨.DomainOriginRequestNum, "d2", "p", 3600, 300⟩, ⟨.BandWidth95, "d2", "p", 3600, 300⟩] := by
  decide

end Behaviour

section Fatal

variable {Client : Type}

/-- An iteration with a non-empty HTTP-code series in which a rounding step fails ends in
`log.Fatal`. -/
theorem collectDomain_round_fails_fatal (rt : Libs) (collector : Collector Client)
    (e : CdnExporter Client) (d : DomainBaseInfo)
    (hh : httpDataOf collector e d ≠ [])
    (h : (∃ err, rt.ParseFloat (rt.Sprintf2 (flowHitRateQuot collector e d)) = .error err) ∨
      (∃ err, rt.ParseFloat (rt.Sprintf2 (requestHitRateQuot collector e d)) = .error err) ∨
      (∃ err, rt.ParseFloat (rt.Sprintf2 (bandWidthQuot collector e d)) = .error err) ∨
      (∃ err, rt.ParseFloat (rt.Sprintf2 (resourceCdnRequestQuot collector e d)) = .error err)) :
    ∃ err, (collectDomain rt collector e d).res = .error (.fatal err) := by
  cases hf : rt.ParseFloat (rt.Sprintf2 (flowHitRateQuot collector e d)) with
  | error err => exact ⟨err, by rw [collectDomain_fatal_flow rt collector e d err hf]⟩
  | ok fa =>
    cases hr : rt.ParseFloat (rt.Sprintf2 (requestHitRateQuot collector e d)) with
    | error err => exact ⟨err, by rw [collectDomain_fatal_request rt collector e d fa err hf hr]⟩
    | ok ra =>
      cases hb : rt.ParseFloat (rt.Sprintf2 (bandWidthQuot collector e d)) with
      | error err =>
        exact ⟨err, by rw [collectDomain_fatal_bandwidth rt collector e d fa ra err hf hr hb]⟩
      | ok ba =>
        cases hq : rt.ParseFloat (rt.Sprintf2 (resourceCdnRequestQuot collector e d)) with
        | error err =>
          exact ⟨err,
            by rw [collectDomain_fatal_resource rt collector e d fa ra ba err hf hr hb hh hq]⟩
        | ok qa =>
          rcases h with ⟨err, h⟩ | ⟨err, h⟩ | ⟨err, h⟩ | ⟨err, h⟩
          · rw [hf] at h; cases h
          · rw [hr] at h; cases h
          · rw [hb] at h; cases h
          · rw [hq] at h; cases h

/-- C10: for any behaviour of the formatting and parsing library, if the
format-to-two-decimals-then-reparse step fails for one of the four mean scalars of a resource
`d` (flow hit rate, request hit rate, bandwidth, resource request), then the scrape of a list
`pre ++ d :: post` sends exactly what the scrape of `pre` alone sends, so no observation of
`d` or of a later resource, and it does not complete, whatever the series contain; when the
resources before `d` are processed completely and the HTTP-code series of `d` is non-empty,
the scrape ends in `log.Fatal` with the error of the failing step. -/
theorem collect_aborts_when_rounding_fails (rt : Libs) (collector : Collector Client)
    (pre post : List DomainBaseInfo) (d : DomainBaseInfo) (pid : String) (rg dy : Int)
    (c : Client)
    (hfail :
      (∃ err, rt.ParseFloat (rt.Sprintf2 (flowHitRateQuot collector
        (CdnCloudExporter (pre ++ d :: post) pid rg dy c) d)) = .error err) ∨
      (∃ err, rt.ParseFloat (rt.Sprintf2 (requestHitRateQuot collector
        (CdnCloudExporter (pre ++ d :: post) pid rg dy c) d)) = .error err) ∨
      (∃ err, rt.ParseFloat (rt.Sprintf2 (bandWidthQuot collector
        (CdnCloudExporter (pre ++ d :: post) pid rg dy c) d)) = .error err) ∨
      (∃ err, rt.ParseFloat (rt.Sprintf2 (resourceCdnRequestQuot collector
        (CdnCloudExporter (pre ++ d :: post) pid rg dy c) d)) = .error err)) :
    (Collect rt collector (CdnCloudExporter (pre ++ d :: post) pid rg dy c)).sent =
      (Collect rt collector (CdnCloudExporter pre pid rg dy c)).sent ∧
    (∃ a, (Collect rt collector (CdnCloudExporter (pre ++ d :: post) pid rg dy c)).res =
      .error a) ∧
    ((Collect rt collector (CdnCloudExporter pre pid rg dy c)).completed →
      (collector.RetrieveOriginHttpCode4xx d.DomainId pid rg dy c).HttpCodeDetail ≠ [] →
      ∃ err, (Collect rt collector (CdnCloudExporter (pre ++ d :: post) pid rg dy c)).res =
        .error (.fatal err)) := by
  have he := oneLabel_CdnCloudExporter (pre ++ d :: post) pid rg dy c
  obtain ⟨s0, a, ha⟩ := collectDomain_round_fails rt collector _ he d hfail
  have hpre : Collect rt collector (CdnCloudExporter pre pid rg dy c) =
      collectLoop rt collector (CdnCloudExporter (pre ++ d :: post) pid rg dy c) pre :=
    collectLoop_domainList rt collector pre (pre ++ d :: post) pid rg dy c pre
  have hall : Collect rt collector (CdnCloudExporter (pre ++ d :: post) pid rg dy c) =
      Run.andThen (collectLoop rt collector (CdnCloudExporter (pre ++ d :: post) pid rg dy c) pre)
        (fun _ => Run.andThen
          (collectDomain rt collector (CdnCloudExporter (pre ++ d :: post) pid rg dy c) d)
          (fun _ => collectLoop rt collector (CdnCloudExporter (pre ++ d :: post) pid rg dy c)
            post)) := by
    show collectLoop rt collector _ (pre ++ d :: post) = _
    rw [collectLoop_append, collectLoop_cons]
  rw [hall, hpre]
  generalize collectLoop rt collector (CdnCloudExporter (pre ++ d :: post) pid rg dy c) pre = P
  generalize hD : collectDomain rt collector (CdnCloudExporter (pre ++ d :: post) pid rg dy c) d
    = D at s0 ha
  obtain ⟨pc, ps, pr⟩ := P
  obtain ⟨dc, ds, dr⟩ := D
  simp only at s0 ha
  subst s0 ha
  cases pr with
  | error b =>
    refine ⟨rfl, ⟨b, rfl⟩, ?_⟩
    intro hcomp
    cases hcomp
  | ok v =>
    rw [Run.andThen_ok, Run.andThen_error]
    refine ⟨by simp, ⟨a, rfl⟩, ?_⟩
    intro _ hh
    obtain ⟨err, herr⟩ := collectDomain_round_fails_fatal rt collector
      (CdnCloudExporter (pre ++ d :: post) pid rg dy c) d hh hfail
    rw [hD] at herr
    exact ⟨err, herr⟩

set_option maxRecDepth 100000 in
/-- With a library whose parser rejects `NaN`, the empty bandwidth series of the second of
three resources stops the scrape after the seven observations of the first. -/
theorem collect_aborts_when_rounding_fails_witness :
    ((∃ err, strictLibs.ParseFloat (strictLibs.Sprintf2 (flowHitRateQuot emptyBandwidthCollector
        (CdnCloudExporter ([secondDomain] ++ exampleDomain :: [secondDomain]) "p" 3600 300 ())
        exampleDomain)) = .error err) ∨
      (∃ err, strictLibs.ParseFloat (strictLibs.Sprintf2 (requestHitRateQuot
        emptyBandwidthCollector
        (CdnCloudExporter ([secondDomain] ++ exampleDomain :: [secondDomain]) "p" 3600 300 ())
        exampleDomain)) = .error err) ∨
      (∃ err, strictLibs.ParseFloat (strictLibs.Sprintf2 (bandWidthQuot emptyBandwidthCollector
        (CdnCloudExporter ([secondDomain] ++ exampleDomain :: [secondDomain]) "p" 3600 300 ())
        exampleDomain)) = .error err) ∨
      (∃ err, strictLibs.ParseFloat (strictLibs.Sprintf2 (resourceCdnRequestQuot
        emptyBandwidthCollector
        (CdnCloudExporter ([secondDomain] ++ exampleDomain :: [secondDomain]) "p" 3600 300 ())
        exampleDomain)) = .error err)) ∧
    (Collect strictLibs emptyBandwidthCollector
        (CdnCloudExporter ([secondDomain] ++ exampleDomain :: [secondDomain]) "p" 3600 300
          ())).sent =
      (Collect strictLibs emptyBandwidthCollector
        (CdnCloudExporter [secondDomain] "p" 3600 300 ())).sent ∧
    (Collect strictLibs emptyBandwidthCollector
        (CdnCloudExporter [secondDomain] "p" 3600 300 ())).sent.length = 7 ∧
    (Collect strictLibs emptyBandwidthCollector
        (CdnCloudExporter ([secondDomain] ++ exampleDomain :: [secondDomain]) "p" 3600 300
          ())).res = .error (.fatal .ErrSyntax) :=
  ⟨Or.inr (Or.inr (Or.inl ⟨.ErrSyntax, by decide⟩)),
   (collect_aborts_when_rounding_fails strictLibs emptyBandwidthCollector [secondDomain]
     [secondDomain] exampleDomain "p" 3600 300 ()
     (Or.inr (Or.inr (Or.inl ⟨.ErrSyntax, by decide⟩)))).1,
   by decide, by decide⟩

/-- The general form of the panic: with the Go library, when the HTTP-code series of a
resource `d` has no point and those of the resources before it are non-empty, the scrape
sends the observations of the resources before `d` only and ends in the panic of the
integer division. -/
theorem collect_go_panics (collector : Collector Client) (pre post : List DomainBaseInfo)
    (d : DomainBaseInfo) (pid : String) (rg dy : Int) (c : Client)
    (hpre : ∀ x ∈ pre,
      (collector.RetrieveOriginHttpCode4xx x.DomainId pid rg dy c).HttpCodeDetail ≠ [])
    (hd : (collector.RetrieveOriginHttpCode4xx d.DomainId pid rg dy c).HttpCodeDetail = []) :
    (Collect goLibs collector (CdnCloudExporter (pre ++ d :: post) pid rg dy c)).sent =
      pre.flatMap (specObservations collector (CdnCloudExporter (pre ++ d :: post) pid rg dy c)) ∧
    (Collect goLibs collector (CdnCloudExporter (pre ++ d :: post) pid rg dy c)).res =
      .error (.panicked "integer divide by zero") := by
  have he := oneLabel_CdnCloudExporter (pre ++ d :: post) pid rg dy c
  have h1 : Collect goLibs collector (CdnCloudExporter (pre ++ d :: post) pid rg dy c) =
      collectLoop goLibs collector (CdnCloudExporter (pre ++ d :: post) pid rg dy c)
        (pre ++ d :: post) := rfl
  rw [h1, collectLoop_append, collectLoop_go collector _ he pre hpre, Run.andThen_ok,
    collectLoop_cons, collectDomain_go_empty collector
      (CdnCloudExporter (pre ++ d :: post) pid rg dy c) d hd, Run.andThen_error]
  simp

end Fatal
end UCloudExporter
